import Mathlib

/-!
# Spline mesh pool reconciliation

A shallow embedding of the two `UFGSplineMeshGenerationLibrary::BuildSplineMeshes`
overloads of `FGSplineMeshGenerationLibrary.h`.

Modelling conventions.

* A finite `float` (spline length, mesh length, distance, vector component) is a
  rational number and an `int32` count is an integer.
* The target count goes through two `float` operations whose results depend on rounding
  and on the range of `int32`: the division `splineLength / meshLength` and
  `FMath::RoundToInt`. Both are fields of `Engine`, so that every theorem holds for
  whatever these operations compute, the quotient being a `FloatValue` that may be an
  infinity or a NaN. The results about pool sizes are stated in terms of the target count
  the code computes with them.
* The distances of the layout pass (`splineLength / numMeshes`, `i * segmentLength`) are
  computed in exact arithmetic: the results about slices speak about the formula, not
  about the rounding of these products.
* A `USplineMeshComponent*` is a `Handle` (the identity of a non-null component), and a
  `USplineComponent` value is a non-null spline, so `check( spline )` passes.
* The mesh pool, the set of registered components and the number of times the mesh
  constructor has been invoked form the `World`; every call on a collaborator
  (constructor, `DestroyComponent`, `SetStartAndEnd`, `SetStaticMesh`,
  `RegisterComponent`) is appended to the world's `log` in program order.
* `IsRegistered()` is membership in `registered` and `RegisterComponent()` adds the
  component to it. `DestroyComponent()` is recorded in the log only: what the engine does
  to a destroyed component is outside the model.
* The mesh constructor is a callable with private state: `meshConstructor k` is what
  its invocation number `k` (counted from 0 over the whole life of the world) returns,
  `none` standing for a null pointer. It has no access to the pool or to registration.
-/

namespace FG

/-- Identity of a non-null `USplineMeshComponent*`. -/
abbrev Handle := Nat

/-- Identity of a `UStaticMesh*` asset. -/
abbrev UStaticMesh := Nat

/-- The engine's `FVector`, with exact components. -/
structure FVector where
  X : ℚ
  Y : ℚ
  Z : ℚ
deriving DecidableEq, Repr

/-- The engine's `FVector * float`. -/
def FVector.mul (v : FVector) (s : ℚ) : FVector :=
  ⟨v.X * s, v.Y * s, v.Z * s⟩

/-- The engine's `ESplineCoordinateSpace::Type`. -/
inductive ESplineCoordinateSpace where
  | Local
  | World
deriving DecidableEq, Repr

/-- The part of `USplineComponent` the library reads. -/
structure USplineComponent where
  GetSplineLength : ℚ
  GetLocationAtDistanceAlongSpline : ℚ → ESplineCoordinateSpace → FVector
  GetTangentAtDistanceAlongSpline : ℚ → ESplineCoordinateSpace → FVector

/-- A value of the type `float`: a finite number, an infinity or a NaN. -/
inductive FloatValue where
  | finite (q : ℚ)
  | posInf
  | negInf
  | nan
deriving DecidableEq, Repr

/-- Operations the library uses and that are not defined in it, kept abstract:
`FVector::GetSafeNormal` (which involves a square root), the `float` division of two
finite values (which rounds, and may overflow to an infinity or give a NaN) and
`FMath::RoundToInt` (which rounds once more and converts to `int32`). -/
structure Engine where
  GetSafeNormal : FVector → FVector
  FloatDiv : ℚ → ℚ → FloatValue
  RoundToInt : FloatValue → ℤ

/-- Calls made on collaborators, as they appear in the log. -/
inductive Effect where
  | Construct (result : Option Handle)
  | DestroyComponent (m : Handle)
  | SetStartAndEnd (m : Handle) (startPos startTangent endPos endTangent : FVector)
      (bUpdateMesh : Bool)
  | SetStaticMesh (m : Handle) (mesh : UStaticMesh)
  | RegisterComponent (m : Handle)
deriving DecidableEq, Repr

/-- Everything a call of `BuildSplineMeshes` reads or changes. -/
structure World where
  meshPool : List Handle
  registered : List Handle
  ctorCalls : Nat
  log : List Effect
deriving DecidableEq, Repr

/-- The target count
`FMath::Max( 1, FMath::RoundToInt( splineLength / meshLength ) )`, with the `float`
division and the rounding of the engine. -/
def numMeshes (E : Engine) (splineLength meshLength : ℚ) : ℤ :=
  max 1 (E.RoundToInt (E.FloatDiv splineLength meshLength))

/-- The loop
`while( meshPool.Num() > numMeshes ) { meshPool.Last()->DestroyComponent(); meshPool.Pop(); }`.
The loop is only entered with `numMeshes ≥ 1`, so `Last()` is never taken of an empty
pool; the model stops there. -/
def shrinkLoop (n : ℤ) (w : World) : World :=
  if (w.meshPool.length : ℤ) > n then
    match _h : w.meshPool.getLast? with
    | some last =>
      shrinkLoop n
        { w with
          meshPool := w.meshPool.dropLast
          log := w.log ++ [Effect.DestroyComponent last] }
    | none => w
  else w
termination_by w.meshPool.length
decreasing_by
  simp_wf
  cases hp : w.meshPool with
  | nil => simp [hp] at _h
  | cons a l => simp

/-- The loop of the overload without a cap:
`while( meshPool.Num() < numMeshes )` invoke the constructor, push what it returns,
and `break` when it returns null. -/
def growLoop (meshConstructor : Nat → Option Handle) (n : ℤ) (w : World) : World :=
  if (w.meshPool.length : ℤ) < n then
    match meshConstructor w.ctorCalls with
    | some newMesh =>
      growLoop meshConstructor n
        { w with
          meshPool := w.meshPool ++ [newMesh]
          ctorCalls := w.ctorCalls + 1
          log := w.log ++ [Effect.Construct (some newMesh)] }
    | none =>
      { w with
        ctorCalls := w.ctorCalls + 1
        log := w.log ++ [Effect.Construct none] }
  else w
termination_by (n - (w.meshPool.length : ℤ)).toNat
decreasing_by
  simp_wf
  omega

/-- The loop of the overload with a cap:
`while( meshPool.Num() < numMeshes && meshPool.Num() < maxNumMeshes )`, same body. -/
def growLoopCapped (meshConstructor : Nat → Option Handle) (n maxNumMeshes : ℤ)
    (w : World) : World :=
  if (w.meshPool.length : ℤ) < n ∧ (w.meshPool.length : ℤ) < maxNumMeshes then
    match meshConstructor w.ctorCalls with
    | some newMesh =>
      growLoopCapped meshConstructor n maxNumMeshes
        { w with
          meshPool := w.meshPool ++ [newMesh]
          ctorCalls := w.ctorCalls + 1
          log := w.log ++ [Effect.Construct (some newMesh)] }
    | none =>
      { w with
        ctorCalls := w.ctorCalls + 1
        log := w.log ++ [Effect.Construct none] }
  else w
termination_by (n - (w.meshPool.length : ℤ)).toNat
decreasing_by
  simp_wf
  omega

/-- The layout loop's `const float startDistance = (float )i * segmentLength;`. -/
def startDistance (segmentLength : ℚ) (i : Nat) : ℚ :=
  (i : ℚ) * segmentLength

/-- The layout loop's `const float endDistance = (float )( i + 1 ) * segmentLength;`. -/
def endDistance (segmentLength : ℚ) (i : Nat) : ℚ :=
  ((i + 1 : Nat) : ℚ) * segmentLength

/-- The call `meshPool[ i ]->SetStartAndEnd( startPos, startTangent, endPos, endTangent, true )`
of the layout loop at pool index `i` holding component `m`, with the arguments the source
computes from the spline. -/
def poseCall (E : Engine) (spline : USplineComponent) (segmentLength : ℚ) (i : Nat)
    (m : Handle) : Effect :=
  let startPos :=
    spline.GetLocationAtDistanceAlongSpline (startDistance segmentLength i) .Local
  let startTangent :=
    (E.GetSafeNormal
      (spline.GetTangentAtDistanceAlongSpline (startDistance segmentLength i) .Local)).mul
      segmentLength
  let endPos := spline.GetLocationAtDistanceAlongSpline (endDistance segmentLength i) .Local
  let endTangent :=
    (E.GetSafeNormal
      (spline.GetTangentAtDistanceAlongSpline (endDistance segmentLength i) .Local)).mul
      segmentLength
  Effect.SetStartAndEnd m startPos startTangent endPos endTangent true

/-- One iteration of the layout loop for pool index `i` holding component `m`: the
`SetStartAndEnd` call followed by the `SetStaticMesh` call. -/
def layoutStep (E : Engine) (spline : USplineComponent) (mesh : UStaticMesh)
    (segmentLength : ℚ) (i : Nat) (m : Handle) : List Effect :=
  [poseCall E spline segmentLength i m, Effect.SetStaticMesh m mesh]

/-- The loop `for( int32 i = 0; i < meshPool.Num(); ++i )`, from index `i` on, over the
pool entries from index `i` on. -/
def layoutFrom (E : Engine) (spline : USplineComponent) (mesh : UStaticMesh)
    (segmentLength : ℚ) : Nat → List Handle → List Effect
  | _, [] => []
  | i, m :: rest =>
    layoutStep E spline mesh segmentLength i m ++
      layoutFrom E spline mesh segmentLength (i + 1) rest

/-- The layout pass: "Put all pieces along the spline." -/
def layoutLoop (E : Engine) (spline : USplineComponent) (mesh : UStaticMesh)
    (segmentLength : ℚ) (w : World) : World :=
  { w with log := w.log ++ layoutFrom E spline mesh segmentLength 0 w.meshPool }

/-- The loop `for( auto meshComp : meshPool )` registering what is not registered yet,
over the remaining pool entries. -/
def registerFrom : List Handle → World → World
  | [], w => w
  | meshComp :: rest, w =>
    if meshComp ∈ w.registered then registerFrom rest w
    else
      registerFrom rest
        { w with
          registered := w.registered ++ [meshComp]
          log := w.log ++ [Effect.RegisterComponent meshComp] }

/-- The registration pass: "Register new meshes". -/
def registerLoop (w : World) : World :=
  registerFrom w.meshPool w

/-- The pool adjustment of the overload without a cap. -/
def adjustPool (meshConstructor : Nat → Option Handle) (n : ℤ) (w : World) : World :=
  if n < (w.meshPool.length : ℤ) then shrinkLoop n w
  else if n > (w.meshPool.length : ℤ) then growLoop meshConstructor n w
  else w

/-- The pool adjustment of the overload with a cap. -/
def adjustPoolCapped (meshConstructor : Nat → Option Handle) (n maxNumMeshes : ℤ)
    (w : World) : World :=
  if n < (w.meshPool.length : ℤ) then shrinkLoop n w
  else if n > (w.meshPool.length : ℤ) then growLoopCapped meshConstructor n maxNumMeshes w
  else w

/-- The overload `BuildSplineMeshes( spline, mesh, meshLength, meshPool, meshConstructor )`. -/
def BuildSplineMeshes (E : Engine) (spline : USplineComponent) (mesh : UStaticMesh)
    (meshLength : ℚ) (meshConstructor : Nat → Option Handle) (w : World) : World :=
  let splineLength := spline.GetSplineLength
  let n := numMeshes E splineLength meshLength
  let w1 := adjustPool meshConstructor n w
  let w2 := layoutLoop E spline mesh (splineLength / (n : ℚ)) w1
  registerLoop w2

/-- The overload
`BuildSplineMeshes( spline, mesh, meshLength, maxNumMeshes, meshPool, meshConstructor )`. -/
def BuildSplineMeshesCapped (E : Engine) (spline : USplineComponent) (mesh : UStaticMesh)
    (meshLength : ℚ) (maxNumMeshes : ℤ) (meshConstructor : Nat → Option Handle)
    (w : World) : World :=
  let splineLength := spline.GetSplineLength
  let n := numMeshes E splineLength meshLength
  let w1 := adjustPoolCapped meshConstructor n maxNumMeshes w
  let segmentLength := splineLength / (n : ℚ)
  let w2 := layoutLoop E spline mesh segmentLength w1
  registerLoop w2

/-- The results of the constructor invocations number `c`, `c + 1`, ... made by a loop
that wants `d` more components and stops after the first null result. -/
def ctorRun (meshConstructor : Nat → Option Handle) : Nat → Nat → List (Option Handle)
  | _, 0 => []
  | c, d + 1 =>
    match meshConstructor c with
    | some newMesh => some newMesh :: ctorRun meshConstructor (c + 1) d
    | none => [none]

/-- The components the registration loop registers, in order, when it walks the given
pool entries and the given components are registered already. -/
def newlyRegistered : List Handle → List Handle → List Handle
  | [], _ => []
  | meshComp :: rest, reg =>
    if meshComp ∈ reg then newlyRegistered rest reg
    else meshComp :: newlyRegistered rest (reg ++ [meshComp])

/-- Whether a log entry is a `RegisterComponent` call. -/
def Effect.isRegister : Effect → Bool
  | .RegisterComponent _ => true
  | _ => false

/-- Whether a log entry is a `SetStartAndEnd` call. -/
def Effect.isSetStartAndEnd : Effect → Bool
  | .SetStartAndEnd _ _ _ _ _ _ => true
  | _ => false

/-- Whether a log entry is a `DestroyComponent` call. -/
def Effect.isDestroy : Effect → Bool
  | .DestroyComponent _ => true
  | _ => false

/-- Whether a log entry is an invocation of the mesh constructor. -/
def Effect.isConstruct : Effect → Bool
  | .Construct _ => true
  | _ => false

/-- The log entries a call appended: what the log after the call holds beyond the log
before it. -/
def callLog (before after : World) : List Effect :=
  after.log.drop before.log.length

/-! ## Foundation sides (`Buildables/FGBuildableFactoryBuilding.h`) -/

/-- Modelled from the spec: `FVector::ZeroVector` is an engine constant that is not declared
under src/ and that the specification does not describe; it is taken at its engine value
(0, 0, 0). -/
def FVector.ZeroVector : FVector :=
  ⟨0, 0, 0⟩

/-- Modelled from the spec: `FVector::ForwardVector` is an engine constant that is not declared
under src/ and that the specification does not describe; it is taken at its engine value
(1, 0, 0). -/
def FVector.ForwardVector : FVector :=
  ⟨1, 0, 0⟩

/-- Modelled from the spec: `FVector::BackwardVector` is an engine constant that is not declared
under src/ and that the specification does not describe; it is taken at its engine value
(-1, 0, 0). -/
def FVector.BackwardVector : FVector :=
  ⟨-1, 0, 0⟩

/-- Modelled from the spec: `FVector::RightVector` is an engine constant that is not declared
under src/ and that the specification does not describe; it is taken at its engine value
(0, 1, 0). -/
def FVector.RightVector : FVector :=
  ⟨0, 1, 0⟩

/-- Modelled from the spec: `FVector::LeftVector` is an engine constant that is not declared
under src/ and that the specification does not describe; it is taken at its engine value
(0, -1, 0). -/
def FVector.LeftVector : FVector :=
  ⟨0, -1, 0⟩

/-- Modelled from the spec: `FVector::UpVector` is an engine constant that is not declared
under src/ and that the specification does not describe; it is taken at its engine value
(0, 0, 1). -/
def FVector.UpVector : FVector :=
  ⟨0, 0, 1⟩

/-- Modelled from the spec: `FVector::DownVector` is an engine constant that is not declared
under src/ and that the specification does not describe; it is taken at its engine value
(0, 0, -1). -/
def FVector.DownVector : FVector :=
  ⟨0, 0, -1⟩

/-- The engine's unary minus on `FVector`. -/
def FVector.neg (v : FVector) : FVector :=
  ⟨-v.X, -v.Y, -v.Z⟩

/-- A vector along one coordinate axis and of length 1: one component is 1 or -1 and the
other two are 0. -/
def FVector.IsAxisUnit (v : FVector) : Prop :=
  ((v.X = 1 ∨ v.X = -1) ∧ v.Y = 0 ∧ v.Z = 0) ∨
  (v.X = 0 ∧ (v.Y = 1 ∨ v.Y = -1) ∧ v.Z = 0) ∨
  (v.X = 0 ∧ v.Y = 0 ∧ (v.Z = 1 ∨ v.Z = -1))

/-- The type `enum class EFoundationSide : uint8`: a value is its underlying `uint8`, so
that values other than the seven enumerators are covered. -/
abbrev EFoundationSide := Fin 256

/-- The enumerator `FoundationFront`, of value 0. -/
def EFoundationSide.FoundationFront : EFoundationSide := 0

/-- The enumerator `FoundationRight`, of value 1. -/
def EFoundationSide.FoundationRight : EFoundationSide := 1

/-- The enumerator `FoundationBack`, of value 2. -/
def EFoundationSide.FoundationBack : EFoundationSide := 2

/-- The enumerator `FoundationLeft`, of value 3. -/
def EFoundationSide.FoundationLeft : EFoundationSide := 3

/-- The enumerator `FoundationTop`, of value 4. -/
def EFoundationSide.FoundationTop : EFoundationSide := 4

/-- The enumerator `FoundationBottom`, of value 5. -/
def EFoundationSide.FoundationBottom : EFoundationSide := 5

/-- The enumerator `FoundationNumSides`, of value 6. -/
def EFoundationSide.FoundationNumSides : EFoundationSide := 6

/-- The function `GetLocalSpaceNormalFromFoundationSide`: a `switch` over the six sides
whose `default` falls through to `return FVector::ZeroVector`. -/
def GetLocalSpaceNormalFromFoundationSide (Side : EFoundationSide) : FVector :=
  if Side = EFoundationSide.FoundationFront then FVector.ForwardVector
  else if Side = EFoundationSide.FoundationRight then FVector.RightVector
  else if Side = EFoundationSide.FoundationBack then FVector.BackwardVector
  else if Side = EFoundationSide.FoundationLeft then FVector.LeftVector
  else if Side = EFoundationSide.FoundationTop then FVector.UpVector
  else if Side = EFoundationSide.FoundationBottom then FVector.DownVector
  else FVector.ZeroVector

/-- The six sides of a foundation, in the order of the enumeration. -/
def foundationSides : List EFoundationSide :=
  [EFoundationSide.FoundationFront, EFoundationSide.FoundationRight,
   EFoundationSide.FoundationBack, EFoundationSide.FoundationLeft,
   EFoundationSide.FoundationTop, EFoundationSide.FoundationBottom]

/-! ## Concrete inputs -/

/-- A straight spline of the given length along the X axis, with unit tangents. -/
def straightSpline (L : ℚ) : USplineComponent :=
  ⟨L, fun d _ => ⟨d, 0, 0⟩, fun _ _ => ⟨1, 0, 0⟩⟩

/-- The division of two finite `float` values without rounding: the quotient as a
rational number, and an infinity or a NaN when the divisor is 0. -/
def exactDiv (a b : ℚ) : FloatValue :=
  if b = 0 then
    (if 0 < a then FloatValue.posInf else if a < 0 then FloatValue.negInf
      else FloatValue.nan)
  else FloatValue.finite (a / b)

/-- Rounding to the nearest integer, halves up, without rounding the sum `F + 0.5`; the
value `-2^31` is returned when the result does not fit `int32` or `F` is not finite, as
the x86 conversion instruction does. -/
def roundHalfUp : FloatValue → ℤ
  | FloatValue.finite q =>
    if -2147483648 ≤ ⌊q + 1 / 2⌋ ∧ ⌊q + 1 / 2⌋ < 2147483648 then ⌊q + 1 / 2⌋
    else -2147483648
  | _ => -2147483648

/-- An engine for the concrete inputs of this file: its `GetSafeNormal` is only used on
unit vectors, which it returns unchanged, and its `float` division and `RoundToInt`
compute without rounding error, which is what `float` arithmetic does on the inputs
used here (950 / 100 = 9.5, 250 / 100 = 2.5, 50 / 100 = 0.5 and the like are `float`
values, and so are these values plus 0.5). -/
def unitEngine : Engine :=
  ⟨fun v => v, exactDiv, roundHalfUp⟩

/-- A mesh constructor returning a new component at every invocation: invocation `k`
returns the component `base + k`. -/
def freshConstructor (base : Nat) : Nat → Option Handle :=
  fun k => some (base + k)

/-- A mesh constructor that returns null at invocation `f` and a new component at every
other invocation. -/
def failingAt (base f : Nat) : Nat → Option Handle :=
  fun k => if k = f then none else some (base + k)

/-- A world with the given pool, nothing registered, no constructor invocation so far
and an empty log. -/
def worldOfPool (pool : List Handle) : World :=
  ⟨pool, [], 0, []⟩

/-! ## The two pool loops in closed form -/

theorem shrinkLoop_mk (n : ℤ) (hn : 0 ≤ n) (pool : List Handle) :
    ∀ (reg : List Handle) (c : Nat) (log : List Effect),
      shrinkLoop n ⟨pool, reg, c, log⟩ =
        ⟨pool.take n.toNat, reg, c,
          log ++ ((pool.drop n.toNat).reverse.map Effect.DestroyComponent)⟩ := by
  induction pool using List.reverseRecOn with
  | nil =>
    intro reg c log
    rw [shrinkLoop]
    simp
  | append_singleton l a ih =>
    intro reg c log
    rw [shrinkLoop]
    by_cases h : ((l ++ [a]).length : ℤ) > n
    · have hl : n.toNat ≤ l.length := by
        simp at h
        omega
      have hg : (l ++ [a]).getLast? = some a := by simp
      simp only [h, if_true]
      split
      · rename_i last hlast
        rw [hg] at hlast
        cases hlast
        simp only [List.dropLast_concat]
        rw [ih]
        simp [List.take_append_of_le_length hl, List.drop_append_of_le_length hl]
      · rename_i hnone
        rw [hg] at hnone
        cases hnone
    · have hl : (l ++ [a]).length ≤ n.toNat := by
        simp at h ⊢
        omega
      simp only [h, if_false]
      simp [List.take_of_length_le hl, List.drop_of_length_le hl]

theorem shrinkLoop_eq (n : ℤ) (hn : 0 ≤ n) (w : World) :
    shrinkLoop n w =
      { w with
        meshPool := w.meshPool.take n.toNat
        log := w.log ++ ((w.meshPool.drop n.toNat).reverse.map Effect.DestroyComponent) } := by
  cases w with
  | mk pool reg c log => exact shrinkLoop_mk n hn pool reg c log

theorem growLoop_mk (meshConstructor : Nat → Option Handle) (n : ℤ) (d : Nat) :
    ∀ (pool reg : List Handle) (c : Nat) (log : List Effect),
      (n - (pool.length : ℤ)).toNat = d →
      growLoop meshConstructor n ⟨pool, reg, c, log⟩ =
        ⟨pool ++ (ctorRun meshConstructor c d).reduceOption, reg,
          c + (ctorRun meshConstructor c d).length,
          log ++ (ctorRun meshConstructor c d).map Effect.Construct⟩ := by
  induction d with
  | zero =>
    intro pool reg c log hd
    rw [growLoop]
    have h : ¬ ((pool.length : ℤ) < n) := by omega
    simp [h, ctorRun]
  | succ d ih =>
    intro pool reg c log hd
    rw [growLoop]
    have h : (pool.length : ℤ) < n := by omega
    simp only [h, if_true]
    cases hc : meshConstructor c with
    | none => simp [ctorRun, hc]
    | some newMesh =>
      simp only []
      rw [ih (pool ++ [newMesh]) reg (c + 1) (log ++ [Effect.Construct (some newMesh)])
        (by simp; omega)]
      simp [ctorRun, hc, List.reduceOption_cons_of_some]
      omega

theorem growLoopCapped_mk (meshConstructor : Nat → Option Handle) (n maxNumMeshes : ℤ)
    (d : Nat) :
    ∀ (pool reg : List Handle) (c : Nat) (log : List Effect),
      (min n maxNumMeshes - (pool.length : ℤ)).toNat = d →
      growLoopCapped meshConstructor n maxNumMeshes ⟨pool, reg, c, log⟩ =
        ⟨pool ++ (ctorRun meshConstructor c d).reduceOption, reg,
          c + (ctorRun meshConstructor c d).length,
          log ++ (ctorRun meshConstructor c d).map Effect.Construct⟩ := by
  induction d with
  | zero =>
    intro pool reg c log hd
    rw [growLoopCapped]
    have h : ¬ ((pool.length : ℤ) < n ∧ (pool.length : ℤ) < maxNumMeshes) := by omega
    simp [h, ctorRun]
  | succ d ih =>
    intro pool reg c log hd
    rw [growLoopCapped]
    have h : (pool.length : ℤ) < n ∧ (pool.length : ℤ) < maxNumMeshes := by omega
    simp only [h, and_self, if_true]
    cases hc : meshConstructor c with
    | none => simp [ctorRun, hc]
    | some newMesh =>
      simp only []
      rw [ih (pool ++ [newMesh]) reg (c + 1) (log ++ [Effect.Construct (some newMesh)])
        (by simp; omega)]
      simp [ctorRun, hc, List.reduceOption_cons_of_some]
      omega

theorem growLoop_eq (meshConstructor : Nat → Option Handle) (n : ℤ) (w : World) :
    growLoop meshConstructor n w =
      { w with
        meshPool := w.meshPool ++
          (ctorRun meshConstructor w.ctorCalls (n - (w.meshPool.length : ℤ)).toNat).reduceOption
        ctorCalls := w.ctorCalls +
          (ctorRun meshConstructor w.ctorCalls (n - (w.meshPool.length : ℤ)).toNat).length
        log := w.log ++
          (ctorRun meshConstructor w.ctorCalls (n - (w.meshPool.length : ℤ)).toNat).map
            Effect.Construct } := by
  cases w with
  | mk pool reg c log => exact growLoop_mk meshConstructor n _ pool reg c log rfl

theorem growLoopCapped_eq (meshConstructor : Nat → Option Handle) (n maxNumMeshes : ℤ)
    (w : World) :
    growLoopCapped meshConstructor n maxNumMeshes w =
      { w with
        meshPool := w.meshPool ++
          (ctorRun meshConstructor w.ctorCalls
            (min n maxNumMeshes - (w.meshPool.length : ℤ)).toNat).reduceOption
        ctorCalls := w.ctorCalls +
          (ctorRun meshConstructor w.ctorCalls
            (min n maxNumMeshes - (w.meshPool.length : ℤ)).toNat).length
        log := w.log ++
          (ctorRun meshConstructor w.ctorCalls
            (min n maxNumMeshes - (w.meshPool.length : ℤ)).toNat).map Effect.Construct } := by
  cases w with
  | mk pool reg c log => exact growLoopCapped_mk meshConstructor n maxNumMeshes _ pool reg c log rfl

theorem one_le_numMeshes (E : Engine) (splineLength meshLength : ℚ) :
    1 ≤ numMeshes E splineLength meshLength := by
  unfold numMeshes
  exact le_max_left _ _

theorem ctorRun_of_isSome (meshConstructor : Nat → Option Handle) (d : Nat) :
    ∀ c : Nat, (∀ j, j < d → (meshConstructor (c + j)).isSome = true) →
      ctorRun meshConstructor c d = (List.range d).map (fun j => meshConstructor (c + j)) := by
  induction d with
  | zero => intro c _; simp [ctorRun]
  | succ d ih =>
    intro c h
    have h0 := h 0 (by omega)
    rw [Nat.add_zero, Option.isSome_iff_exists] at h0
    obtain ⟨newMesh, hm⟩ := h0
    have ih1 := ih (c + 1) (fun j hj => by
      have := h (j + 1) (by omega)
      rwa [show c + 1 + j = c + (j + 1) by omega])
    simp only [ctorRun, hm, ih1, List.range_succ_eq_map, List.map_cons, List.map_map,
      Nat.add_zero, hm]
    congr 1
    apply List.map_congr_left
    intro j _
    simp only [Function.comp, Nat.succ_eq_add_one]
    rw [show c + 1 + j = c + (j + 1) by omega]

theorem ctorRun_of_first_none (meshConstructor : Nat → Option Handle) (k : Nat) :
    ∀ (d c : Nat), k < d → (∀ j, j < k → (meshConstructor (c + j)).isSome = true) →
      meshConstructor (c + k) = none →
      ctorRun meshConstructor c d =
        (List.range k).map (fun j => meshConstructor (c + j)) ++ [none] := by
  induction k with
  | zero =>
    intro d c hd _ hnone
    obtain ⟨d, rfl⟩ : ∃ e, d = e + 1 := ⟨d - 1, by omega⟩
    rw [Nat.add_zero] at hnone
    simp [ctorRun, hnone]
  | succ k ih =>
    intro d c hd h hnone
    obtain ⟨d, rfl⟩ : ∃ e, d = e + 1 := ⟨d - 1, by omega⟩
    have h0 := h 0 (by omega)
    rw [Nat.add_zero, Option.isSome_iff_exists] at h0
    obtain ⟨newMesh, hm⟩ := h0
    have ih1 := ih d (c + 1) (by omega) (fun j hj => by
      have := h (j + 1) (by omega)
      rwa [show c + 1 + j = c + (j + 1) by omega])
      (by rwa [show c + 1 + k = c + (k + 1) by omega])
    simp only [ctorRun, hm, ih1, List.range_succ_eq_map, List.map_cons, List.map_map,
      Nat.add_zero, hm, List.cons_append]
    congr 2
    apply List.map_congr_left
    intro j _
    simp only [Function.comp, Nat.succ_eq_add_one]
    rw [show c + 1 + j = c + (j + 1) by omega]

theorem reduceOption_map_of_isSome (f : Nat → Option Handle) (l : List Nat)
    (h : ∀ j ∈ l, (f j).isSome = true) :
    ((l.map f).reduceOption).map some = l.map f := by
  induction l with
  | nil => simp
  | cons a l ih =>
    have ha := h a (List.mem_cons_self _ _)
    rw [Option.isSome_iff_exists] at ha
    obtain ⟨x, hx⟩ := ha
    have := ih (fun j hj => h j (List.mem_cons_of_mem _ hj))
    simp [hx, List.reduceOption_cons_of_some, this]

/-! ## The registration pass in closed form -/

theorem registerFrom_eq (l : List Handle) :
    ∀ w : World,
      registerFrom l w =
        { w with
          registered := w.registered ++ newlyRegistered l w.registered
          log := w.log ++ (newlyRegistered l w.registered).map Effect.RegisterComponent } := by
  induction l with
  | nil => intro w; simp [registerFrom, newlyRegistered]
  | cons m rest ih =>
    intro w
    by_cases h : m ∈ w.registered
    · simp [registerFrom, newlyRegistered, h, ih]
    · simp [registerFrom, newlyRegistered, h, ih]

theorem mem_newlyRegistered (l : List Handle) :
    ∀ (reg : List Handle) (m : Handle), m ∈ newlyRegistered l reg → m ∈ l ∧ m ∉ reg := by
  induction l with
  | nil => intro reg m h; simp [newlyRegistered] at h
  | cons a rest ih =>
    intro reg m h
    by_cases ha : a ∈ reg
    · simp only [newlyRegistered, ha, if_true] at h
      exact ⟨List.mem_cons_of_mem _ (ih reg m h).1, (ih reg m h).2⟩
    · simp only [newlyRegistered, ha, if_false, List.mem_cons] at h
      rcases h with rfl | h
      · exact ⟨List.mem_cons_self _ _, ha⟩
      · have := ih _ m h
        refine ⟨List.mem_cons_of_mem _ this.1, fun hm => this.2 ?_⟩
        exact List.mem_append_left _ hm

theorem newlyRegistered_nodup (l : List Handle) :
    ∀ reg : List Handle, (newlyRegistered l reg).Nodup := by
  induction l with
  | nil => intro reg; simp [newlyRegistered]
  | cons a rest ih =>
    intro reg
    by_cases ha : a ∈ reg
    · simpa [newlyRegistered, ha] using ih reg
    · simp only [newlyRegistered, ha, if_false, List.nodup_cons]
      refine ⟨fun hmem => ?_, ih _⟩
      exact (mem_newlyRegistered rest _ a hmem).2 (by simp)

theorem mem_registered_after (l : List Handle) :
    ∀ (reg : List Handle) (m : Handle), m ∈ l → m ∈ reg ++ newlyRegistered l reg := by
  induction l with
  | nil => intro reg m h; simp at h
  | cons a rest ih =>
    intro reg m h
    by_cases ha : a ∈ reg
    · simp only [newlyRegistered, ha, if_true]
      rcases List.mem_cons.1 h with rfl | h
      · exact List.mem_append_left _ ha
      · exact ih reg m h
    · simp only [newlyRegistered, ha, if_false]
      rcases List.mem_cons.1 h with rfl | h
      · simp
      · have := ih (reg ++ [a]) m h
        simpa [List.append_assoc] using this

/-! ## The two overloads in closed form -/

theorem adjustPool_registered (meshConstructor : Nat → Option Handle) (n : ℤ) (hn : 0 ≤ n)
    (w : World) : (adjustPool meshConstructor n w).registered = w.registered := by
  unfold adjustPool
  split
  · rw [shrinkLoop_eq n hn]
  · split
    · rw [growLoop_eq]
    · rfl

theorem adjustPoolCapped_registered (meshConstructor : Nat → Option Handle)
    (n maxNumMeshes : ℤ) (hn : 0 ≤ n) (w : World) :
    (adjustPoolCapped meshConstructor n maxNumMeshes w).registered = w.registered := by
  unfold adjustPoolCapped
  split
  · rw [shrinkLoop_eq n hn]
  · split
    · rw [growLoopCapped_eq]
    · rfl

theorem BuildSplineMeshes_eq (E : Engine) (spline : USplineComponent) (mesh : UStaticMesh)
    (meshLength : ℚ) (meshConstructor : Nat → Option Handle) (w : World) :
    BuildSplineMeshes E spline mesh meshLength meshConstructor w =
      { meshPool :=
          (adjustPool meshConstructor (numMeshes E spline.GetSplineLength meshLength) w).meshPool
        registered := w.registered ++ newlyRegistered
          (adjustPool meshConstructor (numMeshes E spline.GetSplineLength meshLength) w).meshPool
          w.registered
        ctorCalls :=
          (adjustPool meshConstructor (numMeshes E spline.GetSplineLength meshLength) w).ctorCalls
        log :=
          (adjustPool meshConstructor (numMeshes E spline.GetSplineLength meshLength) w).log ++
          layoutFrom E spline mesh
            (spline.GetSplineLength / (numMeshes E spline.GetSplineLength meshLength : ℚ)) 0
            (adjustPool meshConstructor
              (numMeshes E spline.GetSplineLength meshLength) w).meshPool ++
          (newlyRegistered
            (adjustPool meshConstructor
              (numMeshes E spline.GetSplineLength meshLength) w).meshPool
            w.registered).map Effect.RegisterComponent } := by
  have hn : (0 : ℤ) ≤ numMeshes E spline.GetSplineLength meshLength :=
    le_trans (by norm_num) (one_le_numMeshes _ _ _)
  simp only [BuildSplineMeshes, registerLoop, layoutLoop, registerFrom_eq,
    adjustPool_registered meshConstructor _ hn w]

theorem BuildSplineMeshesCapped_eq (E : Engine) (spline : USplineComponent)
    (mesh : UStaticMesh) (meshLength : ℚ) (maxNumMeshes : ℤ)
    (meshConstructor : Nat → Option Handle) (w : World) :
    BuildSplineMeshesCapped E spline mesh meshLength maxNumMeshes meshConstructor w =
      { meshPool :=
          (adjustPoolCapped meshConstructor (numMeshes E spline.GetSplineLength meshLength)
            maxNumMeshes w).meshPool
        registered := w.registered ++ newlyRegistered
          (adjustPoolCapped meshConstructor (numMeshes E spline.GetSplineLength meshLength)
            maxNumMeshes w).meshPool
          w.registered
        ctorCalls :=
          (adjustPoolCapped meshConstructor (numMeshes E spline.GetSplineLength meshLength)
            maxNumMeshes w).ctorCalls
        log :=
          (adjustPoolCapped meshConstructor (numMeshes E spline.GetSplineLength meshLength)
            maxNumMeshes w).log ++
          layoutFrom E spline mesh
            (spline.GetSplineLength / (numMeshes E spline.GetSplineLength meshLength : ℚ)) 0
            (adjustPoolCapped meshConstructor
              (numMeshes E spline.GetSplineLength meshLength) maxNumMeshes w).meshPool ++
          (newlyRegistered
            (adjustPoolCapped meshConstructor
              (numMeshes E spline.GetSplineLength meshLength) maxNumMeshes w).meshPool
            w.registered).map Effect.RegisterComponent } := by
  have hn : (0 : ℤ) ≤ numMeshes E spline.GetSplineLength meshLength :=
    le_trans (by norm_num) (one_le_numMeshes _ _ _)
  simp only [BuildSplineMeshesCapped, registerLoop, layoutLoop, registerFrom_eq,
    adjustPoolCapped_registered meshConstructor _ maxNumMeshes hn w]

/-! ## Pool size -/

theorem ctorRun_reduceOption_of_isSome (meshConstructor : Nat → Option Handle) (c d : Nat)
    (h : ∀ j, j < d → (meshConstructor (c + j)).isSome = true) :
    ((ctorRun meshConstructor c d).reduceOption).map some =
      (List.range d).map (fun j => meshConstructor (c + j)) := by
  rw [ctorRun_of_isSome meshConstructor d c h]
  exact reduceOption_map_of_isSome _ _ (fun j hj => h j (List.mem_range.1 hj))

theorem ctorRun_reduceOption_length_of_isSome (meshConstructor : Nat → Option Handle)
    (c d : Nat) (h : ∀ j, j < d → (meshConstructor (c + j)).isSome = true) :
    ((ctorRun meshConstructor c d).reduceOption).length = d := by
  have := congrArg List.length (ctorRun_reduceOption_of_isSome meshConstructor c d h)
  simpa using this

theorem adjustPool_length_of_isSome (meshConstructor : Nat → Option Handle) (n : ℤ)
    (hn : 0 ≤ n) (w : World) (h : ∀ k, (meshConstructor k).isSome = true) :
    ((adjustPool meshConstructor n w).meshPool.length : ℤ) = n := by
  unfold adjustPool
  split
  · rename_i hlt
    rw [shrinkLoop_eq n hn]
    simp only [List.length_take]
    omega
  · split
    · rename_i hgt
      rw [growLoop_eq]
      simp only [List.length_append]
      rw [ctorRun_reduceOption_length_of_isSome _ _ _ (fun j _ => h _)]
      omega
    · omega

/-- C1: for a spline of positive length, a positive mesh length, any starting world and
a mesh constructor that never returns null, the overload without a cap leaves the pool
with exactly `max(1, round(L/S))` components, the division being the `float` division
of the code and `round` its `FMath::RoundToInt`. -/
theorem C1_uncapped_pool_size (E : Engine) (spline : USplineComponent) (mesh : UStaticMesh)
    (meshLength : ℚ) (meshConstructor : Nat → Option Handle) (w : World)
    (hL : 0 < spline.GetSplineLength) (hS : 0 < meshLength)
    (hctor : ∀ k, (meshConstructor k).isSome = true) :
    ((BuildSplineMeshes E spline mesh meshLength meshConstructor w).meshPool.length : ℤ) =
      max 1 (E.RoundToInt (E.FloatDiv spline.GetSplineLength meshLength)) := by
  have _hpos : 0 < spline.GetSplineLength / meshLength := div_pos hL hS
  rw [BuildSplineMeshes_eq]
  exact adjustPool_length_of_isSome meshConstructor _
    (le_trans (by norm_num) (one_le_numMeshes _ _ _)) w hctor

theorem numMeshes_eq_of_bounds (splineLength meshLength : ℚ) (k : ℤ) (h1 : 1 ≤ k)
    (hmax : k < 2147483648) (hS : meshLength ≠ 0)
    (hlo : (k : ℚ) ≤ splineLength / meshLength + 1 / 2)
    (hhi : splineLength / meshLength + 1 / 2 < (k : ℚ) + 1) :
    numMeshes unitEngine splineLength meshLength = k := by
  have hfloor : ⌊splineLength / meshLength + 1 / 2⌋ = k := by
    rw [Int.floor_eq_iff]
    exact ⟨hlo, hhi⟩
  have hr : roundHalfUp (exactDiv splineLength meshLength) = k := by
    simp only [exactDiv, hS, if_false, roundHalfUp, hfloor]
    rw [if_pos ⟨by omega, hmax⟩]
  show max 1 (roundHalfUp (exactDiv splineLength meshLength)) = k
  rw [hr]
  exact max_eq_right h1

theorem roundHalfUp_not_finite :
    roundHalfUp FloatValue.posInf = -2147483648 ∧
    roundHalfUp FloatValue.negInf = -2147483648 ∧
    roundHalfUp FloatValue.nan = -2147483648 :=
  ⟨rfl, rfl, rfl⟩

theorem numMeshes_of_overflow : numMeshes unitEngine 3000000000 1 = 1 := by
  have hfloor : ⌊(3000000000 : ℚ) / 1 + 1 / 2⌋ = 3000000000 := by
    rw [Int.floor_eq_iff]
    norm_num
  have hr : roundHalfUp (exactDiv 3000000000 1) = -2147483648 := by
    simp only [exactDiv, one_ne_zero, if_false, roundHalfUp, hfloor]
    norm_num
  show max 1 (roundHalfUp (exactDiv 3000000000 1)) = 1
  rw [hr]
  rfl

theorem numMeshes_of_zero_meshLength : numMeshes unitEngine 1000 0 = 1 := by
  have hr : roundHalfUp (exactDiv 1000 0) = -2147483648 := by
    simp [exactDiv, roundHalfUp]
  show max 1 (roundHalfUp (exactDiv 1000 0)) = 1
  rw [hr]
  rfl

theorem numMeshes_950_100 : numMeshes unitEngine (straightSpline 950).GetSplineLength 100 = 10 :=
  numMeshes_eq_of_bounds _ _ _ (by norm_num) (by norm_num) (by norm_num)
    (by norm_num [straightSpline]) (by norm_num [straightSpline])

theorem numMeshes_1000_100 :
    numMeshes unitEngine (straightSpline 1000).GetSplineLength 100 = 10 :=
  numMeshes_eq_of_bounds _ _ _ (by norm_num) (by norm_num) (by norm_num)
    (by norm_num [straightSpline]) (by norm_num [straightSpline])

/-- C1 at `L = 950`, `S = 100`, starting from a pool of 13 components: 10 remain; and at
`L = 1000`, `S = 100`, starting from an empty pool: 10 are created. -/
theorem C1_uncapped_pool_size_witness :
    ((0 : ℚ) < (straightSpline 950).GetSplineLength ∧ (0 : ℚ) < 100 ∧
      (∀ k, (freshConstructor 100 k).isSome = true) ∧
      ((BuildSplineMeshes unitEngine (straightSpline 950) 7 100 (freshConstructor 100)
        (worldOfPool [1, 2, 3, 4, 5, 6, 7, 8, 9, 10, 11, 12, 13])).meshPool.length : ℤ) = 10) ∧
    ((0 : ℚ) < (straightSpline 1000).GetSplineLength ∧
      ((BuildSplineMeshes unitEngine (straightSpline 1000) 7 100 (freshConstructor 100)
        (worldOfPool [])).meshPool.length : ℤ) = 10) :=
  ⟨⟨by norm_num [straightSpline], by norm_num, fun _ => rfl,
    (C1_uncapped_pool_size unitEngine (straightSpline 950) 7 100 (freshConstructor 100)
      (worldOfPool [1, 2, 3, 4, 5, 6, 7, 8, 9, 10, 11, 12, 13])
      (by norm_num [straightSpline]) (by norm_num) (fun _ => rfl)).trans numMeshes_950_100⟩,
   ⟨by norm_num [straightSpline],
    (C1_uncapped_pool_size unitEngine (straightSpline 1000) 7 100 (freshConstructor 100)
      (worldOfPool []) (by norm_num [straightSpline]) (by norm_num)
      (fun _ => rfl)).trans numMeshes_1000_100⟩⟩

/-! ## What each pass writes to the log -/

theorem mem_layoutFrom (E : Engine) (spline : USplineComponent) (mesh : UStaticMesh)
    (segmentLength : ℚ) (l : List Handle) :
    ∀ (i : Nat) (e : Effect), e ∈ layoutFrom E spline mesh segmentLength i l →
      e.isDestroy = false ∧ e.isConstruct = false ∧ e.isRegister = false := by
  induction l with
  | nil => intro i e h; simp [layoutFrom] at h
  | cons m rest ih =>
    intro i e h
    simp only [layoutFrom, layoutStep, poseCall, List.mem_append, List.mem_cons,
      List.mem_singleton, List.not_mem_nil, or_false] at h
    rcases h with (rfl | rfl) | h
    · simp [Effect.isDestroy, Effect.isConstruct, Effect.isRegister]
    · simp [Effect.isDestroy, Effect.isConstruct, Effect.isRegister]
    · exact ih _ e h

theorem filter_isDestroy_layoutFrom (E : Engine) (spline : USplineComponent)
    (mesh : UStaticMesh) (segmentLength : ℚ) (i : Nat) (l : List Handle) :
    (layoutFrom E spline mesh segmentLength i l).filter Effect.isDestroy = [] := by
  rw [List.filter_eq_nil_iff]
  intro e he
  simp [(mem_layoutFrom E spline mesh segmentLength l i e he).1]

theorem filter_isConstruct_layoutFrom (E : Engine) (spline : USplineComponent)
    (mesh : UStaticMesh) (segmentLength : ℚ) (i : Nat) (l : List Handle) :
    (layoutFrom E spline mesh segmentLength i l).filter Effect.isConstruct = [] := by
  rw [List.filter_eq_nil_iff]
  intro e he
  simp [(mem_layoutFrom E spline mesh segmentLength l i e he).2.1]

theorem filter_isDestroy_map_register (l : List Handle) :
    (l.map Effect.RegisterComponent).filter Effect.isDestroy = [] := by
  induction l with
  | nil => rfl
  | cons a l ih => simp [Effect.isDestroy, ih]

theorem filter_isConstruct_map_register (l : List Handle) :
    (l.map Effect.RegisterComponent).filter Effect.isConstruct = [] := by
  induction l with
  | nil => rfl
  | cons a l ih => simp [Effect.isConstruct, ih]

theorem filter_isDestroy_map_destroy (l : List Handle) :
    (l.map Effect.DestroyComponent).filter Effect.isDestroy =
      l.map Effect.DestroyComponent := by
  induction l with
  | nil => rfl
  | cons a l ih => simp [Effect.isDestroy, ih]

theorem filter_isConstruct_map_destroy (l : List Handle) :
    (l.map Effect.DestroyComponent).filter Effect.isConstruct = [] := by
  induction l with
  | nil => rfl
  | cons a l ih => simp [Effect.isConstruct, ih]

theorem filter_isDestroy_map_construct (l : List (Option Handle)) :
    (l.map Effect.Construct).filter Effect.isDestroy = [] := by
  induction l with
  | nil => rfl
  | cons a l ih => simp [Effect.isDestroy, ih]

theorem filter_isConstruct_map_construct (l : List (Option Handle)) :
    (l.map Effect.Construct).filter Effect.isConstruct = l.map Effect.Construct := by
  induction l with
  | nil => rfl
  | cons a l ih => simp [Effect.isConstruct, ih]

/-! ## Shrinking -/

theorem adjustPool_of_lt (meshConstructor : Nat → Option Handle) (n : ℤ) (hn : 0 ≤ n)
    (w : World) (h : n < (w.meshPool.length : ℤ)) :
    adjustPool meshConstructor n w =
      { w with
        meshPool := w.meshPool.take n.toNat
        log := w.log ++ ((w.meshPool.drop n.toNat).reverse.map Effect.DestroyComponent) } := by
  unfold adjustPool
  rw [if_pos h, shrinkLoop_eq n hn]

theorem adjustPoolCapped_of_lt (meshConstructor : Nat → Option Handle) (n maxNumMeshes : ℤ)
    (hn : 0 ≤ n) (w : World) (h : n < (w.meshPool.length : ℤ)) :
    adjustPoolCapped meshConstructor n maxNumMeshes w =
      { w with
        meshPool := w.meshPool.take n.toNat
        log := w.log ++ ((w.meshPool.drop n.toNat).reverse.map Effect.DestroyComponent) } := by
  unfold adjustPoolCapped
  rw [if_pos h, shrinkLoop_eq n hn]

/-- C2: when the target count `M` is below the pool size, `BuildSplineMeshes` (either
overload) leaves as pool the first `M` components of the original pool in their order,
its `DestroyComponent` calls are exactly one per component of the rest of the original
pool, last component first, and it never invokes the mesh constructor. -/
theorem C2_shrink_keeps_first (E : Engine) (spline : USplineComponent) (mesh : UStaticMesh)
    (meshLength : ℚ) (maxNumMeshes : ℤ) (meshConstructor : Nat → Option Handle) (w : World)
    (M : Nat) (hM : numMeshes E spline.GetSplineLength meshLength = (M : ℤ))
    (hlt : M < w.meshPool.length) :
    ((BuildSplineMeshes E spline mesh meshLength meshConstructor w).meshPool =
        w.meshPool.take M ∧
      (callLog w (BuildSplineMeshes E spline mesh meshLength meshConstructor w)).filter
          Effect.isDestroy =
        (w.meshPool.drop M).reverse.map Effect.DestroyComponent ∧
      (callLog w (BuildSplineMeshes E spline mesh meshLength meshConstructor w)).filter
          Effect.isConstruct = [] ∧
      (BuildSplineMeshes E spline mesh meshLength meshConstructor w).ctorCalls =
        w.ctorCalls) ∧
    ((BuildSplineMeshesCapped E spline mesh meshLength maxNumMeshes meshConstructor
        w).meshPool = w.meshPool.take M ∧
      (callLog w (BuildSplineMeshesCapped E spline mesh meshLength maxNumMeshes
          meshConstructor w)).filter Effect.isDestroy =
        (w.meshPool.drop M).reverse.map Effect.DestroyComponent ∧
      (callLog w (BuildSplineMeshesCapped E spline mesh meshLength maxNumMeshes
          meshConstructor w)).filter Effect.isConstruct = [] ∧
      (BuildSplineMeshesCapped E spline mesh meshLength maxNumMeshes meshConstructor
        w).ctorCalls = w.ctorCalls) := by
  have hn : (0 : ℤ) ≤ (M : ℤ) := Int.natCast_nonneg M
  have hlt2 : (M : ℤ) < (w.meshPool.length : ℤ) := by exact_mod_cast hlt
  constructor
  · rw [BuildSplineMeshes_eq, hM, adjustPool_of_lt meshConstructor _ hn w hlt2]
    simp only [callLog, List.append_assoc, List.drop_left, List.filter_append,
      filter_isDestroy_layoutFrom, filter_isConstruct_layoutFrom,
      filter_isDestroy_map_register, filter_isConstruct_map_register,
      filter_isDestroy_map_destroy, filter_isConstruct_map_destroy, List.append_nil,
      Int.toNat_ofNat, and_self]
  · rw [BuildSplineMeshesCapped_eq, hM,
      adjustPoolCapped_of_lt meshConstructor _ maxNumMeshes hn w hlt2]
    simp only [callLog, List.append_assoc, List.drop_left, List.filter_append,
      filter_isDestroy_layoutFrom, filter_isConstruct_layoutFrom,
      filter_isDestroy_map_register, filter_isConstruct_map_register,
      filter_isDestroy_map_destroy, filter_isConstruct_map_destroy, List.append_nil,
      Int.toNat_ofNat, and_self]

/-- C2 at `L = 250`, `S = 100` (target 3) on the pool `[1, 2, 3, 4, 5]`: the pool becomes
`[1, 2, 3]`, component 5 and then component 4 are destroyed, and the constructor is not
invoked. -/
theorem C2_shrink_keeps_first_witness :
    numMeshes unitEngine (straightSpline 250).GetSplineLength 100 = ((3 : Nat) : ℤ) ∧
    3 < (worldOfPool [1, 2, 3, 4, 5]).meshPool.length ∧
    (BuildSplineMeshes unitEngine (straightSpline 250) 7 100 (freshConstructor 100)
      (worldOfPool [1, 2, 3, 4, 5])).meshPool = [1, 2, 3] ∧
    (callLog (worldOfPool [1, 2, 3, 4, 5])
      (BuildSplineMeshes unitEngine (straightSpline 250) 7 100 (freshConstructor 100)
        (worldOfPool [1, 2, 3, 4, 5]))).filter Effect.isDestroy =
      [Effect.DestroyComponent 5, Effect.DestroyComponent 4] ∧
    (BuildSplineMeshesCapped unitEngine (straightSpline 250) 7 100 1 (freshConstructor 100)
      (worldOfPool [1, 2, 3, 4, 5])).meshPool = [1, 2, 3] :=
  have h1 : numMeshes unitEngine (straightSpline 250).GetSplineLength 100 = ((3 : Nat) : ℤ) :=
    numMeshes_eq_of_bounds _ _ _ (by norm_num) (by norm_num) (by norm_num) (by norm_num [straightSpline])
      (by norm_num [straightSpline])
  have h2 : 3 < (worldOfPool [1, 2, 3, 4, 5]).meshPool.length := by decide
  ⟨h1, h2,
    (C2_shrink_keeps_first unitEngine (straightSpline 250) 7 100 1 (freshConstructor 100)
      (worldOfPool [1, 2, 3, 4, 5]) 3 h1 h2).1.1,
    (C2_shrink_keeps_first unitEngine (straightSpline 250) 7 100 1 (freshConstructor 100)
      (worldOfPool [1, 2, 3, 4, 5]) 3 h1 h2).1.2.1,
    (C2_shrink_keeps_first unitEngine (straightSpline 250) 7 100 1 (freshConstructor 100)
      (worldOfPool [1, 2, 3, 4, 5]) 3 h1 h2).2.1⟩

/-! ## Growing -/

theorem adjustPool_of_gt (meshConstructor : Nat → Option Handle) (n : ℤ) (w : World)
    (h : (w.meshPool.length : ℤ) < n) :
    adjustPool meshConstructor n w =
      { w with
        meshPool := w.meshPool ++
          (ctorRun meshConstructor w.ctorCalls (n - (w.meshPool.length : ℤ)).toNat).reduceOption
        ctorCalls := w.ctorCalls +
          (ctorRun meshConstructor w.ctorCalls (n - (w.meshPool.length : ℤ)).toNat).length
        log := w.log ++
          (ctorRun meshConstructor w.ctorCalls (n - (w.meshPool.length : ℤ)).toNat).map
            Effect.Construct } := by
  unfold adjustPool
  rw [if_neg (by omega), if_pos (by omega), growLoop_eq]

theorem adjustPoolCapped_of_gt (meshConstructor : Nat → Option Handle) (n maxNumMeshes : ℤ)
    (w : World) (h : (w.meshPool.length : ℤ) < n) :
    adjustPoolCapped meshConstructor n maxNumMeshes w =
      { w with
        meshPool := w.meshPool ++
          (ctorRun meshConstructor w.ctorCalls
            (min n maxNumMeshes - (w.meshPool.length : ℤ)).toNat).reduceOption
        ctorCalls := w.ctorCalls +
          (ctorRun meshConstructor w.ctorCalls
            (min n maxNumMeshes - (w.meshPool.length : ℤ)).toNat).length
        log := w.log ++
          (ctorRun meshConstructor w.ctorCalls
            (min n maxNumMeshes - (w.meshPool.length : ℤ)).toNat).map Effect.Construct } := by
  unfold adjustPoolCapped
  rw [if_neg (by omega), if_pos (by omega), growLoopCapped_eq]

theorem reduceOption_range_map_of_isSome (f : Nat → Option Handle) (d : Nat)
    (h : ∀ j, j < d → (f j).isSome = true) :
    ((List.range d).map f).reduceOption = (List.range d).filterMap f ∧
      ((List.range d).filterMap f).length = d ∧
      ((List.range d).filterMap f).map some = (List.range d).map f := by
  have h1 : ((List.range d).map f).reduceOption = (List.range d).filterMap f := by
    simp [List.reduceOption, List.filterMap_map]
  have h2 := reduceOption_map_of_isSome f (List.range d) (fun j hj => h j (List.mem_range.1 hj))
  rw [h1] at h2
  refine ⟨h1, ?_, h2⟩
  have := congrArg List.length h2
  simpa using this

/-- C3: when the target count `M` is above the pool size `N` and the mesh constructor
never returns null, the overload without a cap keeps the original pool as the first `N`
entries, appends exactly the `M - N` components returned by the next `M - N` constructor
invocations in the order of the invocations, invokes the constructor `M - N` times and
calls `DestroyComponent` on nothing. -/
theorem C3_grow_appends (E : Engine) (spline : USplineComponent) (mesh : UStaticMesh)
    (meshLength : ℚ) (meshConstructor : Nat → Option Handle) (w : World) (M : Nat)
    (hM : numMeshes E spline.GetSplineLength meshLength = (M : ℤ))
    (hgt : w.meshPool.length < M)
    (hctor : ∀ k, (meshConstructor k).isSome = true) :
    (BuildSplineMeshes E spline mesh meshLength meshConstructor w).meshPool =
      w.meshPool ++ (List.range (M - w.meshPool.length)).filterMap
        (fun j => meshConstructor (w.ctorCalls + j)) ∧
    ((List.range (M - w.meshPool.length)).filterMap
        (fun j => meshConstructor (w.ctorCalls + j))).map some =
      (List.range (M - w.meshPool.length)).map (fun j => meshConstructor (w.ctorCalls + j)) ∧
    (BuildSplineMeshes E spline mesh meshLength meshConstructor w).meshPool.length = M ∧
    (BuildSplineMeshes E spline mesh meshLength meshConstructor w).ctorCalls =
      w.ctorCalls + (M - w.meshPool.length) ∧
    (callLog w (BuildSplineMeshes E spline mesh meshLength meshConstructor w)).filter
        Effect.isConstruct =
      (List.range (M - w.meshPool.length)).map
        (fun j => Effect.Construct (meshConstructor (w.ctorCalls + j))) ∧
    (callLog w (BuildSplineMeshes E spline mesh meshLength meshConstructor w)).filter
        Effect.isDestroy = [] := by
  have hlt2 : (w.meshPool.length : ℤ) < (M : ℤ) := by exact_mod_cast hgt
  have hd : ((M : ℤ) - (w.meshPool.length : ℤ)).toNat = M - w.meshPool.length := by omega
  have hsome : ∀ j, j < M - w.meshPool.length →
      (meshConstructor (w.ctorCalls + j)).isSome = true := fun j _ => hctor _
  obtain ⟨hr1, hr2, hr3⟩ :=
    reduceOption_range_map_of_isSome (fun j => meshConstructor (w.ctorCalls + j))
      (M - w.meshPool.length) hsome
  rw [BuildSplineMeshes_eq, hM, adjustPool_of_gt meshConstructor _ w hlt2, hd,
    ctorRun_of_isSome meshConstructor _ _ hsome]
  simp only [callLog, List.append_assoc, List.drop_left, List.filter_append,
    filter_isDestroy_layoutFrom, filter_isConstruct_layoutFrom,
    filter_isDestroy_map_register, filter_isConstruct_map_register,
    filter_isDestroy_map_construct, filter_isConstruct_map_construct, List.append_nil,
    List.length_append, List.length_map, List.length_range, hr1, hr2]
  refine ⟨trivial, hr3, by omega, trivial, ?_⟩
  simp [List.map_map, Function.comp]

/-- C3 at `L = 500`, `S = 100` (target 5) on the pool `[1, 2]` with a constructor that
has been invoked 3 times before: the pool becomes `[1, 2, 103, 104, 105]`. -/
theorem C3_grow_appends_witness :
    numMeshes unitEngine (straightSpline 500).GetSplineLength 100 = ((5 : Nat) : ℤ) ∧
    (⟨[1, 2], [1], 3, []⟩ : World).meshPool.length < 5 ∧
    (∀ k, (freshConstructor 100 k).isSome = true) ∧
    (BuildSplineMeshes unitEngine (straightSpline 500) 7 100 (freshConstructor 100)
      ⟨[1, 2], [1], 3, []⟩).meshPool = [1, 2, 103, 104, 105] ∧
    (BuildSplineMeshes unitEngine (straightSpline 500) 7 100 (freshConstructor 100)
      ⟨[1, 2], [1], 3, []⟩).ctorCalls = 6 :=
  have h1 : numMeshes unitEngine (straightSpline 500).GetSplineLength 100 = ((5 : Nat) : ℤ) :=
    numMeshes_eq_of_bounds _ _ _ (by norm_num) (by norm_num) (by norm_num) (by norm_num [straightSpline])
      (by norm_num [straightSpline])
  have h2 : (⟨[1, 2], [1], 3, []⟩ : World).meshPool.length < 5 := by decide
  ⟨h1, h2, fun _ => rfl,
    (C3_grow_appends unitEngine (straightSpline 500) 7 100 (freshConstructor 100)
      ⟨[1, 2], [1], 3, []⟩ 5 h1 h2 (fun _ => rfl)).1,
    (C3_grow_appends unitEngine (straightSpline 500) 7 100 (freshConstructor 100)
      ⟨[1, 2], [1], 3, []⟩ 5 h1 h2 (fun _ => rfl)).2.2.2.1⟩

/-! ## Growth cut short by the constructor -/

theorem ctorRun_first_none_facts (meshConstructor : Nat → Option Handle) (c d k0 : Nat)
    (hk : k0 < d) (hsome : ∀ j, j < k0 → (meshConstructor (c + j)).isSome = true)
    (hnone : meshConstructor (c + k0) = none) :
    (ctorRun meshConstructor c d).length = k0 + 1 ∧
    (ctorRun meshConstructor c d).reduceOption =
      (List.range k0).filterMap (fun j => meshConstructor (c + j)) ∧
    ((List.range k0).filterMap (fun j => meshConstructor (c + j))).length = k0 ∧
    (ctorRun meshConstructor c d).map Effect.Construct =
      (List.range (k0 + 1)).map (fun j => Effect.Construct (meshConstructor (c + j))) := by
  obtain ⟨hr1, hr2, _⟩ :=
    reduceOption_range_map_of_isSome (fun j => meshConstructor (c + j)) k0 hsome
  rw [ctorRun_of_first_none meshConstructor k0 d c hk hsome hnone]
  refine ⟨by simp, ?_, hr2, ?_⟩
  · rw [List.reduceOption_append, hr1]
    simp [List.reduceOption]
  · rw [List.range_succ]
    simp [List.map_map, Function.comp, hnone]

/-- C4: when the pool must grow from its size `N` to the target `M > N` and the mesh
constructor returns null for the first time at its `k`-th invocation of the call
(`1 ≤ k ≤ M - N`), the overload without a cap invokes the constructor exactly `k` times,
leaves the original pool followed by the `k - 1` components created, so `N + (k - 1)`
components, and then runs the layout pass over that pool with the segment length `L / M`
and the registration pass, so that every pool entry is registered on return. The
overload with a cap does the same whenever the cap is at least `N + k`. -/
theorem C4_null_result_stops_growth (E : Engine) (spline : USplineComponent)
    (mesh : UStaticMesh) (meshLength : ℚ) (maxNumMeshes : ℤ)
    (meshConstructor : Nat → Option Handle) (w : World) (M k : Nat)
    (hM : numMeshes E spline.GetSplineLength meshLength = (M : ℤ))
    (hk1 : 1 ≤ k) (hk : w.meshPool.length + k ≤ M)
    (hsome : ∀ j, j + 1 < k → (meshConstructor (w.ctorCalls + j)).isSome = true)
    (hnone : meshConstructor (w.ctorCalls + (k - 1)) = none) :
    ((BuildSplineMeshes E spline mesh meshLength meshConstructor w).ctorCalls =
        w.ctorCalls + k ∧
      (BuildSplineMeshes E spline mesh meshLength meshConstructor w).meshPool =
        w.meshPool ++ (List.range (k - 1)).filterMap
          (fun j => meshConstructor (w.ctorCalls + j)) ∧
      (BuildSplineMeshes E spline mesh meshLength meshConstructor w).meshPool.length =
        w.meshPool.length + (k - 1) ∧
      callLog w (BuildSplineMeshes E spline mesh meshLength meshConstructor w) =
        (List.range k).map (fun j => Effect.Construct (meshConstructor (w.ctorCalls + j))) ++
        (layoutFrom E spline mesh (spline.GetSplineLength / (M : ℚ)) 0
          (BuildSplineMeshes E spline mesh meshLength meshConstructor w).meshPool ++
        (newlyRegistered
          (BuildSplineMeshes E spline mesh meshLength meshConstructor w).meshPool
          w.registered).map Effect.RegisterComponent) ∧
      ∀ m ∈ (BuildSplineMeshes E spline mesh meshLength meshConstructor w).meshPool,
        m ∈ (BuildSplineMeshes E spline mesh meshLength meshConstructor w).registered) ∧
    (((w.meshPool.length : ℤ) + (k : ℤ) ≤ maxNumMeshes) →
      (BuildSplineMeshesCapped E spline mesh meshLength maxNumMeshes meshConstructor
        w).ctorCalls = w.ctorCalls + k ∧
      (BuildSplineMeshesCapped E spline mesh meshLength maxNumMeshes meshConstructor
        w).meshPool =
        w.meshPool ++ (List.range (k - 1)).filterMap
          (fun j => meshConstructor (w.ctorCalls + j)) ∧
      (BuildSplineMeshesCapped E spline mesh meshLength maxNumMeshes meshConstructor
        w).meshPool.length = w.meshPool.length + (k - 1) ∧
      callLog w (BuildSplineMeshesCapped E spline mesh meshLength maxNumMeshes
          meshConstructor w) =
        (List.range k).map (fun j => Effect.Construct (meshConstructor (w.ctorCalls + j))) ++
        (layoutFrom E spline mesh (spline.GetSplineLength / (M : ℚ)) 0
          (BuildSplineMeshesCapped E spline mesh meshLength maxNumMeshes meshConstructor
            w).meshPool ++
        (newlyRegistered
          (BuildSplineMeshesCapped E spline mesh meshLength maxNumMeshes meshConstructor
            w).meshPool
          w.registered).map Effect.RegisterComponent) ∧
      ∀ m ∈ (BuildSplineMeshesCapped E spline mesh meshLength maxNumMeshes meshConstructor
          w).meshPool,
        m ∈ (BuildSplineMeshesCapped E spline mesh meshLength maxNumMeshes meshConstructor
          w).registered) := by
  obtain ⟨k0, rfl⟩ : ∃ k0, k = k0 + 1 := ⟨k - 1, by omega⟩
  simp only [Nat.add_sub_cancel] at hnone ⊢
  have hlt2 : (w.meshPool.length : ℤ) < (M : ℤ) := by omega
  have hsome2 : ∀ j, j < k0 → (meshConstructor (w.ctorCalls + j)).isSome = true :=
    fun j hj => hsome j (by omega)
  constructor
  · obtain ⟨f1, f2, f3, f4⟩ := ctorRun_first_none_facts meshConstructor w.ctorCalls
      ((M : ℤ) - (w.meshPool.length : ℤ)).toNat k0 (by omega) hsome2 hnone
    rw [BuildSplineMeshes_eq, hM, adjustPool_of_gt meshConstructor _ w hlt2]
    simp only [f1, f2, f3, f4, callLog, List.append_assoc, List.drop_left,
      List.length_append, Int.cast_natCast, true_and]
    exact fun m hm => mem_registered_after _ _ m hm
  · intro hcap
    obtain ⟨f1, f2, f3, f4⟩ := ctorRun_first_none_facts meshConstructor w.ctorCalls
      (min (M : ℤ) maxNumMeshes - (w.meshPool.length : ℤ)).toNat k0
      (by
        have : (w.meshPool.length : ℤ) + ((k0 : ℤ) + 1) ≤ min (M : ℤ) maxNumMeshes :=
          le_min (by omega) (by push_cast at hcap; exact hcap)
        omega) hsome2 hnone
    rw [BuildSplineMeshesCapped_eq, hM,
      adjustPoolCapped_of_gt meshConstructor _ maxNumMeshes w hlt2]
    simp only [f1, f2, f3, f4, callLog, List.append_assoc, List.drop_left,
      List.length_append, Int.cast_natCast, true_and]
    exact fun m hm => mem_registered_after _ _ m hm

/-- C4 on the scenario of the specification: growing from 2 to 5 components
(`L = 500`, `S = 100`) with a constructor that returns null at its 3rd invocation ends
with the pool `[1, 2, 100, 101]` of size 4 after 3 invocations, for both overloads. -/
theorem C4_null_result_stops_growth_witness :
    numMeshes unitEngine (straightSpline 500).GetSplineLength 100 = ((5 : Nat) : ℤ) ∧
    1 ≤ 3 ∧ (worldOfPool [1, 2]).meshPool.length + 3 ≤ 5 ∧
    (∀ j, j + 1 < 3 → (failingAt 100 2 ((worldOfPool [1, 2]).ctorCalls + j)).isSome = true) ∧
    failingAt 100 2 ((worldOfPool [1, 2]).ctorCalls + (3 - 1)) = none ∧
    (BuildSplineMeshes unitEngine (straightSpline 500) 7 100 (failingAt 100 2)
      (worldOfPool [1, 2])).ctorCalls = 3 ∧
    (BuildSplineMeshes unitEngine (straightSpline 500) 7 100 (failingAt 100 2)
      (worldOfPool [1, 2])).meshPool = [1, 2, 100, 101] ∧
    (BuildSplineMeshes unitEngine (straightSpline 500) 7 100 (failingAt 100 2)
      (worldOfPool [1, 2])).meshPool.length = 4 ∧
    (BuildSplineMeshesCapped unitEngine (straightSpline 500) 7 100 5 (failingAt 100 2)
      (worldOfPool [1, 2])).meshPool.length = 4 :=
  have h1 : numMeshes unitEngine (straightSpline 500).GetSplineLength 100 = ((5 : Nat) : ℤ) :=
    numMeshes_eq_of_bounds _ _ _ (by norm_num) (by norm_num) (by norm_num) (by norm_num [straightSpline])
      (by norm_num [straightSpline])
  have h2 : (worldOfPool [1, 2]).meshPool.length + 3 ≤ 5 := by decide
  have h3 : ∀ j, j + 1 < 3 →
      (failingAt 100 2 ((worldOfPool [1, 2]).ctorCalls + j)).isSome = true := by
    intro j hj
    have : j = 0 ∨ j = 1 := by omega
    rcases this with rfl | rfl <;> rfl
  have h4 : failingAt 100 2 ((worldOfPool [1, 2]).ctorCalls + (3 - 1)) = none := rfl
  ⟨h1, by decide, h2, h3, h4,
    (C4_null_result_stops_growth unitEngine (straightSpline 500) 7 100 5 (failingAt 100 2)
      (worldOfPool [1, 2]) 5 3 h1 (by decide) h2 h3 h4).1.1,
    (C4_null_result_stops_growth unitEngine (straightSpline 500) 7 100 5 (failingAt 100 2)
      (worldOfPool [1, 2]) 5 3 h1 (by decide) h2 h3 h4).1.2.1,
    (C4_null_result_stops_growth unitEngine (straightSpline 500) 7 100 5 (failingAt 100 2)
      (worldOfPool [1, 2]) 5 3 h1 (by decide) h2 h3 h4).1.2.2.1,
    ((C4_null_result_stops_growth unitEngine (straightSpline 500) 7 100 5 (failingAt 100 2)
      (worldOfPool [1, 2]) 5 3 h1 (by decide) h2 h3 h4).2 (by decide)).2.2.1⟩

/-! ## The layout pass -/

theorem filter_isSetStartAndEnd_layoutFrom (E : Engine) (spline : USplineComponent)
    (mesh : UStaticMesh) (segmentLength : ℚ) (l : List Handle) :
    ∀ i : Nat,
      (layoutFrom E spline mesh segmentLength i l).filter Effect.isSetStartAndEnd =
        List.zipWith (fun j m => poseCall E spline segmentLength j m)
          (List.range' i l.length) l := by
  induction l with
  | nil => intro i; simp [layoutFrom]
  | cons m rest ih =>
    intro i
    simp only [layoutFrom, layoutStep, List.length_cons, List.range'_succ,
      List.zipWith_cons_cons, List.cons_append, List.nil_append]
    rw [List.filter_cons_of_pos (by simp [poseCall, Effect.isSetStartAndEnd]),
      List.filter_cons_of_neg (by simp [Effect.isSetStartAndEnd]), ih (i + 1)]

theorem filter_isSetStartAndEnd_map_register (l : List Handle) :
    (l.map Effect.RegisterComponent).filter Effect.isSetStartAndEnd = [] := by
  induction l with
  | nil => rfl
  | cons a l ih => simp [Effect.isSetStartAndEnd, ih]

theorem filter_isSetStartAndEnd_map_destroy (l : List Handle) :
    (l.map Effect.DestroyComponent).filter Effect.isSetStartAndEnd = [] := by
  induction l with
  | nil => rfl
  | cons a l ih => simp [Effect.isSetStartAndEnd, ih]

theorem filter_isSetStartAndEnd_map_construct (l : List (Option Handle)) :
    (l.map Effect.Construct).filter Effect.isSetStartAndEnd = [] := by
  induction l with
  | nil => rfl
  | cons a l ih => simp [Effect.isSetStartAndEnd, ih]

theorem adjustPool_log (meshConstructor : Nat → Option Handle) (n : ℤ) (hn : 0 ≤ n)
    (w : World) :
    ∃ pre : List Effect, (adjustPool meshConstructor n w).log = w.log ++ pre ∧
      pre.filter Effect.isSetStartAndEnd = [] ∧ pre.filter Effect.isRegister = [] := by
  unfold adjustPool
  split
  · rw [shrinkLoop_eq n hn]
    refine ⟨_, rfl, filter_isSetStartAndEnd_map_destroy _, ?_⟩
    rw [List.filter_eq_nil_iff]
    intro e he
    obtain ⟨m, _, rfl⟩ := List.mem_map.1 he
    simp [Effect.isRegister]
  · split
    · rw [growLoop_eq]
      refine ⟨_, rfl, filter_isSetStartAndEnd_map_construct _, ?_⟩
      rw [List.filter_eq_nil_iff]
      intro e he
      obtain ⟨m, _, rfl⟩ := List.mem_map.1 he
      simp [Effect.isRegister]
    · exact ⟨[], by simp, rfl, rfl⟩

theorem adjustPoolCapped_log (meshConstructor : Nat → Option Handle) (n maxNumMeshes : ℤ)
    (hn : 0 ≤ n) (w : World) :
    ∃ pre : List Effect,
      (adjustPoolCapped meshConstructor n maxNumMeshes w).log = w.log ++ pre ∧
      pre.filter Effect.isSetStartAndEnd = [] ∧ pre.filter Effect.isRegister = [] := by
  unfold adjustPoolCapped
  split
  · rw [shrinkLoop_eq n hn]
    refine ⟨_, rfl, filter_isSetStartAndEnd_map_destroy _, ?_⟩
    rw [List.filter_eq_nil_iff]
    intro e he
    obtain ⟨m, _, rfl⟩ := List.mem_map.1 he
    simp [Effect.isRegister]
  · split
    · rw [growLoopCapped_eq]
      refine ⟨_, rfl, filter_isSetStartAndEnd_map_construct _, ?_⟩
      rw [List.filter_eq_nil_iff]
      intro e he
      obtain ⟨m, _, rfl⟩ := List.mem_map.1 he
      simp [Effect.isRegister]
    · exact ⟨[], by simp, rfl, rfl⟩

theorem BuildSplineMeshes_poses (E : Engine) (spline : USplineComponent) (mesh : UStaticMesh)
    (meshLength : ℚ) (meshConstructor : Nat → Option Handle) (w : World) :
    (callLog w (BuildSplineMeshes E spline mesh meshLength meshConstructor w)).filter
        Effect.isSetStartAndEnd =
      List.zipWith
        (fun j m => poseCall E spline
          (spline.GetSplineLength / (numMeshes E spline.GetSplineLength meshLength : ℚ)) j m)
        (List.range
          (BuildSplineMeshes E spline mesh meshLength meshConstructor w).meshPool.length)
        (BuildSplineMeshes E spline mesh meshLength meshConstructor w).meshPool := by
  have hn : (0 : ℤ) ≤ numMeshes E spline.GetSplineLength meshLength :=
    le_trans (by norm_num) (one_le_numMeshes _ _ _)
  obtain ⟨pre, hpre, hf, _⟩ := adjustPool_log meshConstructor _ hn w
  rw [BuildSplineMeshes_eq]
  simp only [callLog, hpre, List.append_assoc, List.drop_left, List.filter_append, hf,
    filter_isSetStartAndEnd_layoutFrom, filter_isSetStartAndEnd_map_register,
    List.nil_append, List.append_nil, List.range_eq_range']

theorem BuildSplineMeshesCapped_poses (E : Engine) (spline : USplineComponent)
    (mesh : UStaticMesh) (meshLength : ℚ) (maxNumMeshes : ℤ)
    (meshConstructor : Nat → Option Handle) (w : World) :
    (callLog w (BuildSplineMeshesCapped E spline mesh meshLength maxNumMeshes
        meshConstructor w)).filter Effect.isSetStartAndEnd =
      List.zipWith
        (fun j m => poseCall E spline
          (spline.GetSplineLength / (numMeshes E spline.GetSplineLength meshLength : ℚ)) j m)
        (List.range
          (BuildSplineMeshesCapped E spline mesh meshLength maxNumMeshes meshConstructor
            w).meshPool.length)
        (BuildSplineMeshesCapped E spline mesh meshLength maxNumMeshes meshConstructor
          w).meshPool := by
  have hn : (0 : ℤ) ≤ numMeshes E spline.GetSplineLength meshLength :=
    le_trans (by norm_num) (one_le_numMeshes _ _ _)
  obtain ⟨pre, hpre, hf, _⟩ := adjustPoolCapped_log meshConstructor _ maxNumMeshes hn w
  rw [BuildSplineMeshesCapped_eq]
  simp only [callLog, hpre, List.append_assoc, List.drop_left, List.filter_append, hf,
    filter_isSetStartAndEnd_layoutFrom, filter_isSetStartAndEnd_map_register,
    List.nil_append, List.append_nil, List.range_eq_range']

theorem sum_slice_lengths (segmentLength : ℚ) (n : Nat) :
    ((List.range n).map
      (fun i => endDistance segmentLength i - startDistance segmentLength i)).sum =
      (n : ℚ) * segmentLength := by
  induction n with
  | zero => simp
  | succ n ih =>
    rw [List.range_succ, List.map_append, List.sum_append, ih]
    simp only [List.map_cons, List.map_nil, List.sum_cons, List.sum_nil, endDistance,
      startDistance]
    push_cast
    ring

theorem BuildSplineMeshes_length_of_isSome (E : Engine) (spline : USplineComponent)
    (mesh : UStaticMesh) (meshLength : ℚ) (meshConstructor : Nat → Option Handle) (w : World)
    (hctor : ∀ k, (meshConstructor k).isSome = true) :
    ((BuildSplineMeshes E spline mesh meshLength meshConstructor w).meshPool.length : ℤ) =
      numMeshes E spline.GetSplineLength meshLength := by
  rw [BuildSplineMeshes_eq]
  exact adjustPool_length_of_isSome meshConstructor _
    (le_trans (by norm_num) (one_le_numMeshes _ _ _)) w hctor

/-! ## The overload with a cap -/

theorem adjustPoolCapped_length_of_isSome (meshConstructor : Nat → Option Handle)
    (n maxNumMeshes : ℤ) (hn : 0 ≤ n) (w : World)
    (h : ∀ k, (meshConstructor k).isSome = true) :
    ((adjustPoolCapped meshConstructor n maxNumMeshes w).meshPool.length : ℤ) =
      if n < (w.meshPool.length : ℤ) then n
      else max (w.meshPool.length : ℤ) (min n maxNumMeshes) := by
  unfold adjustPoolCapped
  split
  · rename_i hlt
    rw [shrinkLoop_eq n hn]
    simp only [List.length_take]
    omega
  · split
    · rename_i hgt
      rw [growLoopCapped_eq]
      simp only [List.length_append]
      rw [ctorRun_reduceOption_length_of_isSome _ _ _ (fun j _ => h _)]
      omega
    · omega

theorem BuildSplineMeshesCapped_length_of_isSome (E : Engine) (spline : USplineComponent)
    (mesh : UStaticMesh) (meshLength : ℚ) (maxNumMeshes : ℤ)
    (meshConstructor : Nat → Option Handle) (w : World)
    (hctor : ∀ k, (meshConstructor k).isSome = true) :
    ((BuildSplineMeshesCapped E spline mesh meshLength maxNumMeshes meshConstructor
        w).meshPool.length : ℤ) =
      if numMeshes E spline.GetSplineLength meshLength < (w.meshPool.length : ℤ) then
        numMeshes E spline.GetSplineLength meshLength
      else max (w.meshPool.length : ℤ)
        (min (numMeshes E spline.GetSplineLength meshLength) maxNumMeshes) := by
  rw [BuildSplineMeshesCapped_eq]
  exact adjustPoolCapped_length_of_isSome meshConstructor _ maxNumMeshes
    (le_trans (by norm_num) (one_le_numMeshes _ _ _)) w hctor

theorem numMeshes_1000 : numMeshes unitEngine (straightSpline 1000).GetSplineLength 100 = 10 :=
  numMeshes_eq_of_bounds _ _ _ (by norm_num) (by norm_num) (by norm_num) (by norm_num [straightSpline])
    (by norm_num [straightSpline])

/-- C6, as stated, fails: with `L = 1000`, `S = 100` (uncapped target 10), the cap 4, a
constructor that never fails and a reused pool of 6 components, the overload with a cap
leaves the 6 components in the pool, not 4. -/
theorem C6_counterexample :
    (0 : ℚ) < (straightSpline 1000).GetSplineLength ∧ (0 : ℚ) < 100 ∧
    (4 : ℤ) < max 1 (unitEngine.RoundToInt
        (unitEngine.FloatDiv (straightSpline 1000).GetSplineLength 100)) ∧
    (∀ k, (freshConstructor 100 k).isSome = true) ∧
    ((BuildSplineMeshesCapped unitEngine (straightSpline 1000) 7 100 4 (freshConstructor 100)
      (worldOfPool [1, 2, 3, 4, 5, 6])).meshPool.length : ℤ) = 6 ∧
    ((BuildSplineMeshesCapped unitEngine (straightSpline 1000) 7 100 4 (freshConstructor 100)
      (worldOfPool [1, 2, 3, 4, 5, 6])).meshPool.length : ℤ) ≠ 4 := by
  have hT : max (1 : ℤ) (unitEngine.RoundToInt
      (unitEngine.FloatDiv (straightSpline 1000).GetSplineLength 100)) = 10 :=
    numMeshes_1000
  have hlen := BuildSplineMeshesCapped_length_of_isSome unitEngine (straightSpline 1000) 7
    100 4 (freshConstructor 100) (worldOfPool [1, 2, 3, 4, 5, 6]) (fun _ => rfl)
  rw [numMeshes_1000] at hlen
  have h6 : ((worldOfPool [1, 2, 3, 4, 5, 6]).meshPool.length : ℤ) = 6 := rfl
  rw [h6] at hlen
  norm_num at hlen
  refine ⟨by norm_num [straightSpline], by norm_num, ?_, fun _ => rfl, hlen, ?_⟩
  · rw [hT]
    norm_num
  · rw [hlen]
    norm_num

/-- C6, amended: in the overload with a cap, for `L > 0`, `S > 0`, a cap `C` below the
uncapped target `max(1, round(L/S))` (division and rounding as the code computes them), a
constructor that never returns null and a starting pool of at most `C` components, the
resulting pool has exactly `C` components. -/
theorem C6_capped_pool_size (E : Engine) (spline : USplineComponent) (mesh : UStaticMesh)
    (meshLength : ℚ) (maxNumMeshes : ℤ) (meshConstructor : Nat → Option Handle) (w : World)
    (hL : 0 < spline.GetSplineLength) (hS : 0 < meshLength)
    (hcap : maxNumMeshes < max 1 (E.RoundToInt (E.FloatDiv spline.GetSplineLength meshLength)))
    (hpool : (w.meshPool.length : ℤ) ≤ maxNumMeshes)
    (hctor : ∀ k, (meshConstructor k).isSome = true) :
    ((BuildSplineMeshesCapped E spline mesh meshLength maxNumMeshes meshConstructor
      w).meshPool.length : ℤ) = maxNumMeshes := by
  have _hpos : 0 < spline.GetSplineLength / meshLength := div_pos hL hS
  have hcap2 : maxNumMeshes < numMeshes E spline.GetSplineLength meshLength := hcap
  rw [BuildSplineMeshesCapped_length_of_isSome E spline mesh meshLength maxNumMeshes
    meshConstructor w hctor]
  rw [if_neg (by omega)]
  omega

/-- C6, amended, at `L = 1000`, `S = 100`, cap 4 and the starting pool `[1, 2]`: the pool
ends with 4 components. -/
theorem C6_capped_pool_size_witness :
    (0 : ℚ) < (straightSpline 1000).GetSplineLength ∧ (0 : ℚ) < 100 ∧
    (4 : ℤ) < max 1 (unitEngine.RoundToInt
        (unitEngine.FloatDiv (straightSpline 1000).GetSplineLength 100)) ∧
    ((worldOfPool [1, 2]).meshPool.length : ℤ) ≤ 4 ∧
    (∀ k, (freshConstructor 100 k).isSome = true) ∧
    ((BuildSplineMeshesCapped unitEngine (straightSpline 1000) 7 100 4 (freshConstructor 100)
      (worldOfPool [1, 2])).meshPool.length : ℤ) = 4 :=
  have h1 : (0 : ℚ) < (straightSpline 1000).GetSplineLength := by norm_num [straightSpline]
  have h3 : (4 : ℤ) < max 1 (unitEngine.RoundToInt
      (unitEngine.FloatDiv (straightSpline 1000).GetSplineLength 100)) := by
    have hT : max (1 : ℤ) (unitEngine.RoundToInt
        (unitEngine.FloatDiv (straightSpline 1000).GetSplineLength 100)) = 10 :=
      numMeshes_1000
    rw [hT]
    norm_num
  have h4 : ((worldOfPool [1, 2]).meshPool.length : ℤ) ≤ 4 := by decide
  ⟨h1, by norm_num, h3, h4, fun _ => rfl,
    C6_capped_pool_size unitEngine (straightSpline 1000) 7 100 4 (freshConstructor 100)
      (worldOfPool [1, 2]) h1 (by norm_num) h3 h4 (fun _ => rfl)⟩

/-! ## The pool adjustment in one closed form -/

theorem adjustPool_eq (meshConstructor : Nat → Option Handle) (n : ℤ) (hn : 0 ≤ n)
    (w : World) :
    adjustPool meshConstructor n w =
      { meshPool := w.meshPool.take n.toNat ++
          (ctorRun meshConstructor w.ctorCalls (n - (w.meshPool.length : ℤ)).toNat).reduceOption
        registered := w.registered
        ctorCalls := w.ctorCalls +
          (ctorRun meshConstructor w.ctorCalls (n - (w.meshPool.length : ℤ)).toNat).length
        log := w.log ++
          ((w.meshPool.drop n.toNat).reverse.map Effect.DestroyComponent ++
            (ctorRun meshConstructor w.ctorCalls (n - (w.meshPool.length : ℤ)).toNat).map
              Effect.Construct) } := by
  by_cases hlt : n < (w.meshPool.length : ℤ)
  · have hd : (n - (w.meshPool.length : ℤ)).toNat = 0 := by omega
    rw [adjustPool_of_lt meshConstructor n hn w hlt, hd]
    simp [ctorRun]
  · have hle : w.meshPool.length ≤ n.toNat := by omega
    by_cases hgt : (w.meshPool.length : ℤ) < n
    · rw [adjustPool_of_gt meshConstructor n w hgt]
      simp [List.take_of_length_le hle, List.drop_of_length_le hle]
    · have hd : (n - (w.meshPool.length : ℤ)).toNat = 0 := by omega
      unfold adjustPool
      rw [if_neg hlt, if_neg (by omega), hd]
      simp [ctorRun, List.take_of_length_le hle, List.drop_of_length_le hle]

theorem adjustPoolCapped_eq (meshConstructor : Nat → Option Handle) (n maxNumMeshes : ℤ)
    (hn : 0 ≤ n) (w : World) :
    adjustPoolCapped meshConstructor n maxNumMeshes w =
      { meshPool := w.meshPool.take n.toNat ++
          (ctorRun meshConstructor w.ctorCalls
            (min n maxNumMeshes - (w.meshPool.length : ℤ)).toNat).reduceOption
        registered := w.registered
        ctorCalls := w.ctorCalls +
          (ctorRun meshConstructor w.ctorCalls
            (min n maxNumMeshes - (w.meshPool.length : ℤ)).toNat).length
        log := w.log ++
          ((w.meshPool.drop n.toNat).reverse.map Effect.DestroyComponent ++
            (ctorRun meshConstructor w.ctorCalls
              (min n maxNumMeshes - (w.meshPool.length : ℤ)).toNat).map
              Effect.Construct) } := by
  by_cases hlt : n < (w.meshPool.length : ℤ)
  · have hd : (min n maxNumMeshes - (w.meshPool.length : ℤ)).toNat = 0 := by omega
    rw [adjustPoolCapped_of_lt meshConstructor n maxNumMeshes hn w hlt, hd]
    simp [ctorRun]
  · have hle : w.meshPool.length ≤ n.toNat := by omega
    by_cases hgt : (w.meshPool.length : ℤ) < n
    · rw [adjustPoolCapped_of_gt meshConstructor n maxNumMeshes w hgt]
      simp [List.take_of_length_le hle, List.drop_of_length_le hle]
    · have hd : (min n maxNumMeshes - (w.meshPool.length : ℤ)).toNat = 0 := by omega
      unfold adjustPoolCapped
      rw [if_neg hlt, if_neg (by omega), hd]
      simp [ctorRun, List.take_of_length_le hle, List.drop_of_length_le hle]

theorem adjustPool_fixed (meshConstructor : Nat → Option Handle) (n : ℤ) (hn : 0 ≤ n)
    (w : World) (h : (w.meshPool.length : ℤ) = n) : adjustPool meshConstructor n w = w := by
  have hd : (n - (w.meshPool.length : ℤ)).toNat = 0 := by omega
  have hle : w.meshPool.length ≤ n.toNat := by omega
  rw [adjustPool_eq meshConstructor n hn w, hd]
  simp [ctorRun, List.take_of_length_le hle, List.drop_of_length_le hle]

theorem adjustPoolCapped_fixed (meshConstructor : Nat → Option Handle) (n maxNumMeshes : ℤ)
    (hn : 0 ≤ n) (w : World) (h1 : (w.meshPool.length : ℤ) ≤ n)
    (h2 : min n maxNumMeshes ≤ (w.meshPool.length : ℤ)) :
    adjustPoolCapped meshConstructor n maxNumMeshes w = w := by
  have hd : (min n maxNumMeshes - (w.meshPool.length : ℤ)).toNat = 0 := by omega
  have hle : w.meshPool.length ≤ n.toNat := by omega
  rw [adjustPoolCapped_eq meshConstructor n maxNumMeshes hn w, hd]
  simp [ctorRun, List.take_of_length_le hle, List.drop_of_length_le hle]

theorem ctorRun_length_le (meshConstructor : Nat → Option Handle) (d : Nat) :
    ∀ c : Nat, (ctorRun meshConstructor c d).reduceOption.length ≤ d := by
  induction d with
  | zero => intro c; simp [ctorRun]
  | succ d ih =>
    intro c
    cases hc : meshConstructor c with
    | none => simp [ctorRun, hc, List.reduceOption]
    | some m =>
      have := ih (c + 1)
      simp only [ctorRun, hc, List.reduceOption_cons_of_some, List.length_cons]
      omega

theorem ctorRun_length_of_no_none (meshConstructor : Nat → Option Handle) (d : Nat) :
    ∀ c : Nat, none ∉ ctorRun meshConstructor c d →
      (ctorRun meshConstructor c d).reduceOption.length = d := by
  induction d with
  | zero => intro c _; simp [ctorRun]
  | succ d ih =>
    intro c h
    cases hc : meshConstructor c with
    | none => simp [ctorRun, hc] at h
    | some m =>
      simp only [ctorRun, hc, List.mem_cons, not_or] at h
      have := ih (c + 1) h.2
      simp only [ctorRun, hc, List.reduceOption_cons_of_some, List.length_cons]
      omega

theorem newlyRegistered_eq_nil (l : List Handle) :
    ∀ reg : List Handle, (∀ m ∈ l, m ∈ reg) → newlyRegistered l reg = [] := by
  induction l with
  | nil => intro reg _; rfl
  | cons a rest ih =>
    intro reg h
    have ha : a ∈ reg := h a (List.mem_cons_self _ _)
    simp only [newlyRegistered, ha, if_true]
    exact ih reg (fun m hm => h m (List.mem_cons_of_mem _ hm))

theorem filter_isRegister_layoutFrom (E : Engine) (spline : USplineComponent)
    (mesh : UStaticMesh) (segmentLength : ℚ) (i : Nat) (l : List Handle) :
    (layoutFrom E spline mesh segmentLength i l).filter Effect.isRegister = [] := by
  rw [List.filter_eq_nil_iff]
  intro e he
  simp [(mem_layoutFrom E spline mesh segmentLength l i e he).2.2]

theorem poseCall_mem_layoutFrom (E : Engine) (spline : USplineComponent)
    (mesh : UStaticMesh) (segmentLength : ℚ) (l : List Handle) :
    ∀ (i : Nat) (m : Handle), m ∈ l →
      ∃ j, poseCall E spline segmentLength j m ∈ layoutFrom E spline mesh segmentLength i l := by
  induction l with
  | nil => intro i m h; simp at h
  | cons a rest ih =>
    intro i m h
    rcases List.mem_cons.1 h with rfl | h
    · exact ⟨i, by simp [layoutFrom, layoutStep]⟩
    · obtain ⟨j, hj⟩ := ih (i + 1) m h
      exact ⟨j, by simp [layoutFrom, hj]⟩

/-! ## Registration comes last -/

/-- C8: the log entries of any call of `BuildSplineMeshes` (either overload; the mesh
constructor of the model has no access to registration) split into a first part without
any `RegisterComponent`, which holds a `SetStartAndEnd` call for every component of the
final pool, and a second part made of `RegisterComponent` calls only: no component is
registered before every pool entry has its pose. On return every pool entry is
registered, no component is registered twice, and no component that was registered
before the call is registered again. -/
theorem C8_registration_after_layout (E : Engine) (spline : USplineComponent)
    (mesh : UStaticMesh) (meshLength : ℚ) (maxNumMeshes : ℤ)
    (meshConstructor : Nat → Option Handle) (w : World) :
    (∃ (pre : List Effect) (regs : List Handle),
      callLog w (BuildSplineMeshes E spline mesh meshLength meshConstructor w) =
        pre ++ regs.map Effect.RegisterComponent ∧
      pre.filter Effect.isRegister = [] ∧
      (∀ m ∈ (BuildSplineMeshes E spline mesh meshLength meshConstructor w).meshPool,
        ∃ i, poseCall E spline
          (spline.GetSplineLength / (numMeshes E spline.GetSplineLength meshLength : ℚ)) i m
            ∈ pre) ∧
      regs.Nodup ∧ (∀ m ∈ regs, m ∉ w.registered) ∧
      (∀ m ∈ (BuildSplineMeshes E spline mesh meshLength meshConstructor w).meshPool,
        m ∈ (BuildSplineMeshes E spline mesh meshLength meshConstructor w).registered)) ∧
    (∃ (pre : List Effect) (regs : List Handle),
      callLog w (BuildSplineMeshesCapped E spline mesh meshLength maxNumMeshes
          meshConstructor w) = pre ++ regs.map Effect.RegisterComponent ∧
      pre.filter Effect.isRegister = [] ∧
      (∀ m ∈ (BuildSplineMeshesCapped E spline mesh meshLength maxNumMeshes meshConstructor
          w).meshPool,
        ∃ i, poseCall E spline
          (spline.GetSplineLength / (numMeshes E spline.GetSplineLength meshLength : ℚ)) i m
            ∈ pre) ∧
      regs.Nodup ∧ (∀ m ∈ regs, m ∉ w.registered) ∧
      (∀ m ∈ (BuildSplineMeshesCapped E spline mesh meshLength maxNumMeshes meshConstructor
          w).meshPool,
        m ∈ (BuildSplineMeshesCapped E spline mesh meshLength maxNumMeshes meshConstructor
          w).registered)) := by
  have hn : (0 : ℤ) ≤ numMeshes E spline.GetSplineLength meshLength :=
    le_trans (by norm_num) (one_le_numMeshes _ _ _)
  constructor
  · obtain ⟨pre0, hpre0, _, hreg0⟩ := adjustPool_log meshConstructor _ hn w
    rw [BuildSplineMeshes_eq]
    refine ⟨pre0 ++ layoutFrom E spline mesh
        (spline.GetSplineLength / (numMeshes E spline.GetSplineLength meshLength : ℚ)) 0
        (adjustPool meshConstructor (numMeshes E spline.GetSplineLength meshLength) w).meshPool,
      newlyRegistered
        (adjustPool meshConstructor (numMeshes E spline.GetSplineLength meshLength) w).meshPool
        w.registered, ?_, ?_, ?_, newlyRegistered_nodup _ _, ?_, ?_⟩
    · simp only [callLog, hpre0, List.append_assoc, List.drop_left]
    · rw [List.filter_append, hreg0, filter_isRegister_layoutFrom, List.append_nil]
    · intro m hm
      obtain ⟨j, hj⟩ := poseCall_mem_layoutFrom E spline mesh _ _ 0 m hm
      exact ⟨j, List.mem_append_right _ hj⟩
    · exact fun m hm => (mem_newlyRegistered _ _ m hm).2
    · exact fun m hm => mem_registered_after _ _ m hm
  · obtain ⟨pre0, hpre0, _, hreg0⟩ := adjustPoolCapped_log meshConstructor _ maxNumMeshes hn w
    rw [BuildSplineMeshesCapped_eq]
    refine ⟨pre0 ++ layoutFrom E spline mesh
        (spline.GetSplineLength / (numMeshes E spline.GetSplineLength meshLength : ℚ)) 0
        (adjustPoolCapped meshConstructor (numMeshes E spline.GetSplineLength meshLength)
          maxNumMeshes w).meshPool,
      newlyRegistered
        (adjustPoolCapped meshConstructor (numMeshes E spline.GetSplineLength meshLength)
          maxNumMeshes w).meshPool
        w.registered, ?_, ?_, ?_, newlyRegistered_nodup _ _, ?_, ?_⟩
    · simp only [callLog, hpre0, List.append_assoc, List.drop_left]
    · rw [List.filter_append, hreg0, filter_isRegister_layoutFrom, List.append_nil]
    · intro m hm
      obtain ⟨j, hj⟩ := poseCall_mem_layoutFrom E spline mesh _ _ 0 m hm
      exact ⟨j, List.mem_append_right _ hj⟩
    · exact fun m hm => (mem_newlyRegistered _ _ m hm).2
    · exact fun m hm => mem_registered_after _ _ m hm

/-! ## Calling twice -/

theorem BuildSplineMeshes_pool (E : Engine) (spline : USplineComponent) (mesh : UStaticMesh)
    (meshLength : ℚ) (meshConstructor : Nat → Option Handle) (w : World) :
    (BuildSplineMeshes E spline mesh meshLength meshConstructor w).meshPool =
        w.meshPool.take (numMeshes E spline.GetSplineLength meshLength).toNat ++
          (ctorRun meshConstructor w.ctorCalls
            (numMeshes E spline.GetSplineLength meshLength -
              (w.meshPool.length : ℤ)).toNat).reduceOption ∧
    (BuildSplineMeshes E spline mesh meshLength meshConstructor w).ctorCalls =
        w.ctorCalls +
          (ctorRun meshConstructor w.ctorCalls
            (numMeshes E spline.GetSplineLength meshLength -
              (w.meshPool.length : ℤ)).toNat).length ∧
    (callLog w (BuildSplineMeshes E spline mesh meshLength meshConstructor w)).filter
        Effect.isConstruct =
      (ctorRun meshConstructor w.ctorCalls
        (numMeshes E spline.GetSplineLength meshLength -
          (w.meshPool.length : ℤ)).toNat).map Effect.Construct := by
  have hn : (0 : ℤ) ≤ numMeshes E spline.GetSplineLength meshLength :=
    le_trans (by norm_num) (one_le_numMeshes _ _ _)
  rw [BuildSplineMeshes_eq, adjustPool_eq meshConstructor _ hn w]
  simp only [callLog, List.append_assoc, List.drop_left, List.filter_append,
    filter_isConstruct_layoutFrom, filter_isConstruct_map_register,
    filter_isConstruct_map_destroy, filter_isConstruct_map_construct, List.append_nil,
    List.nil_append, and_self]

theorem BuildSplineMeshesCapped_pool (E : Engine) (spline : USplineComponent)
    (mesh : UStaticMesh) (meshLength : ℚ) (maxNumMeshes : ℤ)
    (meshConstructor : Nat → Option Handle) (w : World) :
    (BuildSplineMeshesCapped E spline mesh meshLength maxNumMeshes meshConstructor
        w).meshPool =
        w.meshPool.take (numMeshes E spline.GetSplineLength meshLength).toNat ++
          (ctorRun meshConstructor w.ctorCalls
            (min (numMeshes E spline.GetSplineLength meshLength) maxNumMeshes -
              (w.meshPool.length : ℤ)).toNat).reduceOption ∧
    (BuildSplineMeshesCapped E spline mesh meshLength maxNumMeshes meshConstructor
        w).ctorCalls =
        w.ctorCalls +
          (ctorRun meshConstructor w.ctorCalls
            (min (numMeshes E spline.GetSplineLength meshLength) maxNumMeshes -
              (w.meshPool.length : ℤ)).toNat).length ∧
    (callLog w (BuildSplineMeshesCapped E spline mesh meshLength maxNumMeshes
        meshConstructor w)).filter Effect.isConstruct =
      (ctorRun meshConstructor w.ctorCalls
        (min (numMeshes E spline.GetSplineLength meshLength) maxNumMeshes -
          (w.meshPool.length : ℤ)).toNat).map Effect.Construct := by
  have hn : (0 : ℤ) ≤ numMeshes E spline.GetSplineLength meshLength :=
    le_trans (by norm_num) (one_le_numMeshes _ _ _)
  rw [BuildSplineMeshesCapped_eq, adjustPoolCapped_eq meshConstructor _ maxNumMeshes hn w]
  simp only [callLog, List.append_assoc, List.drop_left, List.filter_append,
    filter_isConstruct_layoutFrom, filter_isConstruct_map_register,
    filter_isConstruct_map_destroy, filter_isConstruct_map_construct, List.append_nil,
    List.nil_append, and_self]

theorem none_not_mem_of_construct_none_not_mem (run : List (Option Handle))
    (log : List Effect) (hlog : log.filter Effect.isConstruct = run.map Effect.Construct)
    (h : Effect.Construct none ∉ log) : none ∉ run := by
  intro hmem
  apply h
  have : Effect.Construct none ∈ log.filter Effect.isConstruct := by
    rw [hlog]
    exact List.mem_map_of_mem _ hmem
  exact (List.mem_filter.1 this).1

theorem mem_ctorRun (meshConstructor : Nat → Option Handle) (d : Nat) :
    ∀ (c : Nat) (x : Option Handle), x ∈ ctorRun meshConstructor c d →
      ∃ k, meshConstructor k = x := by
  induction d with
  | zero => intro c x h; simp [ctorRun] at h
  | succ d ih =>
    intro c x h
    cases hc : meshConstructor c with
    | none =>
      simp only [ctorRun, hc, List.mem_singleton] at h
      exact ⟨c, by rw [hc, h]⟩
    | some m =>
      simp only [ctorRun, hc, List.mem_cons] at h
      rcases h with rfl | h
      · exact ⟨c, hc⟩
      · exact ih (c + 1) x h

theorem construct_none_not_mem_of_isSome (meshConstructor : Nat → Option Handle)
    (hctor : ∀ k, (meshConstructor k).isSome = true) (run : List (Option Handle))
    (hrun : ∀ x ∈ run, ∃ k, meshConstructor k = x)
    (log : List Effect) (hlog : log.filter Effect.isConstruct = run.map Effect.Construct) :
    Effect.Construct none ∉ log := by
  intro hmem
  have : Effect.Construct none ∈ log.filter Effect.isConstruct :=
    List.mem_filter.2 ⟨hmem, rfl⟩
  rw [hlog, List.mem_map] at this
  obtain ⟨x, hx, hxe⟩ := this
  cases hxe
  obtain ⟨k, hk⟩ := hrun none hx
  have := hctor k
  rw [hk] at this
  cases this

theorem BuildSplineMeshes_all_registered (E : Engine) (spline : USplineComponent)
    (mesh : UStaticMesh) (meshLength : ℚ) (meshConstructor : Nat → Option Handle) (w : World) :
    ∀ m ∈ (BuildSplineMeshes E spline mesh meshLength meshConstructor w).meshPool,
      m ∈ (BuildSplineMeshes E spline mesh meshLength meshConstructor w).registered := by
  rw [BuildSplineMeshes_eq]
  exact fun m hm => mem_registered_after _ _ m hm

theorem BuildSplineMeshesCapped_all_registered (E : Engine) (spline : USplineComponent)
    (mesh : UStaticMesh) (meshLength : ℚ) (maxNumMeshes : ℤ)
    (meshConstructor : Nat → Option Handle) (w : World) :
    ∀ m ∈ (BuildSplineMeshesCapped E spline mesh meshLength maxNumMeshes meshConstructor
        w).meshPool,
      m ∈ (BuildSplineMeshesCapped E spline mesh meshLength maxNumMeshes meshConstructor
        w).registered := by
  rw [BuildSplineMeshesCapped_eq]
  exact fun m hm => mem_registered_after _ _ m hm

theorem BuildSplineMeshes_of_settled (E : Engine) (spline : USplineComponent)
    (mesh : UStaticMesh) (meshLength : ℚ) (meshConstructor : Nat → Option Handle) (w : World)
    (hlen : (w.meshPool.length : ℤ) = numMeshes E spline.GetSplineLength meshLength)
    (hreg : ∀ m ∈ w.meshPool, m ∈ w.registered) :
    BuildSplineMeshes E spline mesh meshLength meshConstructor w =
      { w with
        log := w.log ++ layoutFrom E spline mesh
          (spline.GetSplineLength / (numMeshes E spline.GetSplineLength meshLength : ℚ)) 0
          w.meshPool } := by
  have hn : (0 : ℤ) ≤ numMeshes E spline.GetSplineLength meshLength :=
    le_trans (by norm_num) (one_le_numMeshes _ _ _)
  rw [BuildSplineMeshes_eq, adjustPool_fixed meshConstructor _ hn w hlen,
    newlyRegistered_eq_nil _ _ hreg]
  simp

theorem BuildSplineMeshesCapped_of_settled (E : Engine) (spline : USplineComponent)
    (mesh : UStaticMesh) (meshLength : ℚ) (maxNumMeshes : ℤ)
    (meshConstructor : Nat → Option Handle) (w : World)
    (h1 : (w.meshPool.length : ℤ) ≤ numMeshes E spline.GetSplineLength meshLength)
    (h2 : min (numMeshes E spline.GetSplineLength meshLength) maxNumMeshes ≤
      (w.meshPool.length : ℤ))
    (hreg : ∀ m ∈ w.meshPool, m ∈ w.registered) :
    BuildSplineMeshesCapped E spline mesh meshLength maxNumMeshes meshConstructor w =
      { w with
        log := w.log ++ layoutFrom E spline mesh
          (spline.GetSplineLength / (numMeshes E spline.GetSplineLength meshLength : ℚ)) 0
          w.meshPool } := by
  have hn : (0 : ℤ) ≤ numMeshes E spline.GetSplineLength meshLength :=
    le_trans (by norm_num) (one_le_numMeshes _ _ _)
  rw [BuildSplineMeshesCapped_eq,
    adjustPoolCapped_fixed meshConstructor _ maxNumMeshes hn w h1 h2,
    newlyRegistered_eq_nil _ _ hreg]
  simp

theorem BuildSplineMeshes_length_of_no_null (E : Engine) (spline : USplineComponent)
    (mesh : UStaticMesh) (meshLength : ℚ) (meshConstructor : Nat → Option Handle) (w : World)
    (hok : Effect.Construct none ∉
      callLog w (BuildSplineMeshes E spline mesh meshLength meshConstructor w)) :
    ((BuildSplineMeshes E spline mesh meshLength meshConstructor w).meshPool.length : ℤ) =
      numMeshes E spline.GetSplineLength meshLength := by
  have hn : (0 : ℤ) ≤ numMeshes E spline.GetSplineLength meshLength :=
    le_trans (by norm_num) (one_le_numMeshes _ _ _)
  obtain ⟨hp, _, hc⟩ := BuildSplineMeshes_pool E spline mesh meshLength meshConstructor w
  have hnone := none_not_mem_of_construct_none_not_mem _ _ hc hok
  rw [hp, List.length_append, ctorRun_length_of_no_none _ _ _ hnone, List.length_take]
  omega

theorem BuildSplineMeshesCapped_length_of_no_null (E : Engine) (spline : USplineComponent)
    (mesh : UStaticMesh) (meshLength : ℚ) (maxNumMeshes : ℤ)
    (meshConstructor : Nat → Option Handle) (w : World)
    (hok : Effect.Construct none ∉
      callLog w (BuildSplineMeshesCapped E spline mesh meshLength maxNumMeshes
        meshConstructor w)) :
    ((BuildSplineMeshesCapped E spline mesh meshLength maxNumMeshes meshConstructor
        w).meshPool.length : ℤ) ≤ numMeshes E spline.GetSplineLength meshLength ∧
    min (numMeshes E spline.GetSplineLength meshLength) maxNumMeshes ≤
      ((BuildSplineMeshesCapped E spline mesh meshLength maxNumMeshes meshConstructor
        w).meshPool.length : ℤ) := by
  have hn : (0 : ℤ) ≤ numMeshes E spline.GetSplineLength meshLength :=
    le_trans (by norm_num) (one_le_numMeshes _ _ _)
  obtain ⟨hp, _, hc⟩ :=
    BuildSplineMeshesCapped_pool E spline mesh meshLength maxNumMeshes meshConstructor w
  have hnone := none_not_mem_of_construct_none_not_mem _ _ hc hok
  rw [hp, List.length_append, ctorRun_length_of_no_none _ _ _ hnone, List.length_take]
  omega

/-- C9, as stated, fails: with `L = 300`, `S = 100` (target 3), the pool `[1]` and a mesh
constructor that returns null at its first invocation only, the first call leaves the
pool `[1]` and the second call with the same arguments creates two components and leaves
the pool `[1, 101, 102]`. -/
theorem C9_counterexample :
    (0 : ℚ) < 100 ∧
    (BuildSplineMeshes unitEngine (straightSpline 300) 7 100 (failingAt 100 0)
      (worldOfPool [1])).meshPool = [1] ∧
    (BuildSplineMeshes unitEngine (straightSpline 300) 7 100 (failingAt 100 0)
      (BuildSplineMeshes unitEngine (straightSpline 300) 7 100 (failingAt 100 0)
        (worldOfPool [1]))).meshPool = [1, 101, 102] ∧
    (callLog
      (BuildSplineMeshes unitEngine (straightSpline 300) 7 100 (failingAt 100 0)
        (worldOfPool [1]))
      (BuildSplineMeshes unitEngine (straightSpline 300) 7 100 (failingAt 100 0)
        (BuildSplineMeshes unitEngine (straightSpline 300) 7 100 (failingAt 100 0)
          (worldOfPool [1])))).filter Effect.isConstruct =
      [Effect.Construct (some 101), Effect.Construct (some 102)] := by
  have hn : numMeshes unitEngine (straightSpline 300).GetSplineLength 100 = 3 :=
    numMeshes_eq_of_bounds _ _ _ (by norm_num) (by norm_num) (by norm_num) (by norm_num [straightSpline])
      (by norm_num [straightSpline])
  obtain ⟨hp1, hc1, _⟩ := BuildSplineMeshes_pool unitEngine (straightSpline 300) 7 100
    (failingAt 100 0) (worldOfPool [1])
  rw [hn] at hp1 hc1
  have hp1v : (BuildSplineMeshes unitEngine (straightSpline 300) 7 100 (failingAt 100 0)
      (worldOfPool [1])).meshPool = [1] := by
    rw [hp1]
    rfl
  have hc1v : (BuildSplineMeshes unitEngine (straightSpline 300) 7 100 (failingAt 100 0)
      (worldOfPool [1])).ctorCalls = 1 := by
    rw [hc1]
    rfl
  obtain ⟨hp2, _, hl2⟩ := BuildSplineMeshes_pool unitEngine (straightSpline 300) 7 100
    (failingAt 100 0)
    (BuildSplineMeshes unitEngine (straightSpline 300) 7 100 (failingAt 100 0)
      (worldOfPool [1]))
  rw [hn, hp1v, hc1v] at hp2 hl2
  refine ⟨by norm_num, hp1v, ?_, ?_⟩
  · rw [hp2]
    rfl
  · rw [hl2]
    rfl

/-- C9, amended: for a mesh length `S > 0`, when the mesh constructor returned no null
during a first call of `BuildSplineMeshes` (either overload), a second call with the same
arguments on the world left by the first call keeps the pool, invokes the constructor
and `DestroyComponent` on nothing, registers nothing, and its log is just the layout pass
over the same pool, with the same `SetStartAndEnd` calls (same components, same order,
same arguments) as the first call. -/
theorem C9_second_call_repeats (E : Engine) (spline : USplineComponent) (mesh : UStaticMesh)
    (meshLength : ℚ) (maxNumMeshes : ℤ) (meshConstructor : Nat → Option Handle) (w : World)
    (hS : 0 < meshLength) :
    (Effect.Construct none ∉ callLog w (BuildSplineMeshes E spline mesh meshLength meshConstructor w) →
      (BuildSplineMeshes E spline mesh meshLength meshConstructor
        (BuildSplineMeshes E spline mesh meshLength meshConstructor w)).meshPool =
        (BuildSplineMeshes E spline mesh meshLength meshConstructor w).meshPool ∧
      (BuildSplineMeshes E spline mesh meshLength meshConstructor
        (BuildSplineMeshes E spline mesh meshLength meshConstructor w)).ctorCalls =
        (BuildSplineMeshes E spline mesh meshLength meshConstructor w).ctorCalls ∧
      (BuildSplineMeshes E spline mesh meshLength meshConstructor
        (BuildSplineMeshes E spline mesh meshLength meshConstructor w)).registered =
        (BuildSplineMeshes E spline mesh meshLength meshConstructor w).registered ∧
      callLog (BuildSplineMeshes E spline mesh meshLength meshConstructor w)
        (BuildSplineMeshes E spline mesh meshLength meshConstructor
        (BuildSplineMeshes E spline mesh meshLength meshConstructor w)) =
        layoutFrom E spline mesh
          (spline.GetSplineLength / (numMeshes E spline.GetSplineLength meshLength : ℚ)) 0
          (BuildSplineMeshes E spline mesh meshLength meshConstructor w).meshPool ∧
      (callLog (BuildSplineMeshes E spline mesh meshLength meshConstructor w)
        (BuildSplineMeshes E spline mesh meshLength meshConstructor
        (BuildSplineMeshes E spline mesh meshLength meshConstructor w))).filter Effect.isConstruct = [] ∧
      (callLog (BuildSplineMeshes E spline mesh meshLength meshConstructor w)
        (BuildSplineMeshes E spline mesh meshLength meshConstructor
        (BuildSplineMeshes E spline mesh meshLength meshConstructor w))).filter Effect.isDestroy = [] ∧
      (callLog (BuildSplineMeshes E spline mesh meshLength meshConstructor w)
        (BuildSplineMeshes E spline mesh meshLength meshConstructor
        (BuildSplineMeshes E spline mesh meshLength meshConstructor w))).filter Effect.isSetStartAndEnd =
        (callLog w (BuildSplineMeshes E spline mesh meshLength meshConstructor w)).filter
          Effect.isSetStartAndEnd) ∧
    (Effect.Construct none ∉ callLog w (BuildSplineMeshesCapped E spline mesh meshLength maxNumMeshes meshConstructor w) →
      (BuildSplineMeshesCapped E spline mesh meshLength maxNumMeshes meshConstructor
        (BuildSplineMeshesCapped E spline mesh meshLength maxNumMeshes meshConstructor w)).meshPool =
        (BuildSplineMeshesCapped E spline mesh meshLength maxNumMeshes meshConstructor w).meshPool ∧
      (BuildSplineMeshesCapped E spline mesh meshLength maxNumMeshes meshConstructor
        (BuildSplineMeshesCapped E spline mesh meshLength maxNumMeshes meshConstructor w)).ctorCalls =
        (BuildSplineMeshesCapped E spline mesh meshLength maxNumMeshes meshConstructor w).ctorCalls ∧
      (BuildSplineMeshesCapped E spline mesh meshLength maxNumMeshes meshConstructor
        (BuildSplineMeshesCapped E spline mesh meshLength maxNumMeshes meshConstructor w)).registered =
        (BuildSplineMeshesCapped E spline mesh meshLength maxNumMeshes meshConstructor w).registered ∧
      callLog (BuildSplineMeshesCapped E spline mesh meshLength maxNumMeshes meshConstructor w)
        (BuildSplineMeshesCapped E spline mesh meshLength maxNumMeshes meshConstructor
        (BuildSplineMeshesCapped E spline mesh meshLength maxNumMeshes meshConstructor w)) =
        layoutFrom E spline mesh
          (spline.GetSplineLength / (numMeshes E spline.GetSplineLength meshLength : ℚ)) 0
          (BuildSplineMeshesCapped E spline mesh meshLength maxNumMeshes meshConstructor w).meshPool ∧
      (callLog (BuildSplineMeshesCapped E spline mesh meshLength maxNumMeshes meshConstructor w)
        (BuildSplineMeshesCapped E spline mesh meshLength maxNumMeshes meshConstructor
        (BuildSplineMeshesCapped E spline mesh meshLength maxNumMeshes meshConstructor w))).filter Effect.isConstruct = [] ∧
      (callLog (BuildSplineMeshesCapped E spline mesh meshLength maxNumMeshes meshConstructor w)
        (BuildSplineMeshesCapped E spline mesh meshLength maxNumMeshes meshConstructor
        (BuildSplineMeshesCapped E spline mesh meshLength maxNumMeshes meshConstructor w))).filter Effect.isDestroy = [] ∧
      (callLog (BuildSplineMeshesCapped E spline mesh meshLength maxNumMeshes meshConstructor w)
        (BuildSplineMeshesCapped E spline mesh meshLength maxNumMeshes meshConstructor
        (BuildSplineMeshesCapped E spline mesh meshLength maxNumMeshes meshConstructor w))).filter Effect.isSetStartAndEnd =
        (callLog w (BuildSplineMeshesCapped E spline mesh meshLength maxNumMeshes meshConstructor w)).filter
          Effect.isSetStartAndEnd) := by
  have _hS := hS
  constructor
  · intro hok
    have hlen := BuildSplineMeshes_length_of_no_null E spline mesh meshLength
      meshConstructor w hok
    have hreg := BuildSplineMeshes_all_registered E spline mesh meshLength meshConstructor w
    have h2 := BuildSplineMeshes_of_settled E spline mesh meshLength meshConstructor
      (BuildSplineMeshes E spline mesh meshLength meshConstructor w) hlen hreg
    have hposes2 := BuildSplineMeshes_poses E spline mesh meshLength meshConstructor
      (BuildSplineMeshes E spline mesh meshLength meshConstructor w)
    have hposes1 := BuildSplineMeshes_poses E spline mesh meshLength meshConstructor w
    have hpool : (BuildSplineMeshes E spline mesh meshLength meshConstructor
        (BuildSplineMeshes E spline mesh meshLength meshConstructor w)).meshPool =
        (BuildSplineMeshes E spline mesh meshLength meshConstructor w).meshPool := by
      rw [h2]
    have hlog : callLog (BuildSplineMeshes E spline mesh meshLength meshConstructor w)
        (BuildSplineMeshes E spline mesh meshLength meshConstructor
          (BuildSplineMeshes E spline mesh meshLength meshConstructor w)) =
        layoutFrom E spline mesh
          (spline.GetSplineLength / (numMeshes E spline.GetSplineLength meshLength : ℚ)) 0
          (BuildSplineMeshes E spline mesh meshLength meshConstructor w).meshPool := by
      rw [h2]
      simp only [callLog, List.drop_left]
    refine ⟨hpool, by rw [h2], by rw [h2], hlog, ?_, ?_, ?_⟩
    · rw [hlog, filter_isConstruct_layoutFrom]
    · rw [hlog, filter_isDestroy_layoutFrom]
    · rw [hposes2, hposes1, hpool]
  · intro hok
    obtain ⟨hlen1, hlen2⟩ := BuildSplineMeshesCapped_length_of_no_null E spline mesh
      meshLength maxNumMeshes meshConstructor w hok
    have hreg := BuildSplineMeshesCapped_all_registered E spline mesh meshLength
      maxNumMeshes meshConstructor w
    have h2 := BuildSplineMeshesCapped_of_settled E spline mesh meshLength maxNumMeshes
      meshConstructor
      (BuildSplineMeshesCapped E spline mesh meshLength maxNumMeshes meshConstructor w)
      hlen1 hlen2 hreg
    have hposes2 := BuildSplineMeshesCapped_poses E spline mesh meshLength maxNumMeshes
      meshConstructor
      (BuildSplineMeshesCapped E spline mesh meshLength maxNumMeshes meshConstructor w)
    have hposes1 := BuildSplineMeshesCapped_poses E spline mesh meshLength maxNumMeshes
      meshConstructor w
    have hpool : (BuildSplineMeshesCapped E spline mesh meshLength maxNumMeshes
        meshConstructor
        (BuildSplineMeshesCapped E spline mesh meshLength maxNumMeshes meshConstructor
          w)).meshPool =
        (BuildSplineMeshesCapped E spline mesh meshLength maxNumMeshes meshConstructor
          w).meshPool := by
      rw [h2]
    have hlog : callLog
        (BuildSplineMeshesCapped E spline mesh meshLength maxNumMeshes meshConstructor w)
        (BuildSplineMeshesCapped E spline mesh meshLength maxNumMeshes meshConstructor
          (BuildSplineMeshesCapped E spline mesh meshLength maxNumMeshes meshConstructor
            w)) =
        layoutFrom E spline mesh
          (spline.GetSplineLength / (numMeshes E spline.GetSplineLength meshLength : ℚ)) 0
          (BuildSplineMeshesCapped E spline mesh meshLength maxNumMeshes meshConstructor
            w).meshPool := by
      rw [h2]
      simp only [callLog, List.drop_left]
    refine ⟨hpool, by rw [h2], by rw [h2], hlog, ?_, ?_, ?_⟩
    · rw [hlog, filter_isConstruct_layoutFrom]
    · rw [hlog, filter_isDestroy_layoutFrom]
    · rw [hposes2, hposes1, hpool]

theorem BuildSplineMeshes_no_null_of_isSome (E : Engine) (spline : USplineComponent)
    (mesh : UStaticMesh) (meshLength : ℚ) (meshConstructor : Nat → Option Handle) (w : World)
    (hctor : ∀ k, (meshConstructor k).isSome = true) :
    Effect.Construct none ∉
      callLog w (BuildSplineMeshes E spline mesh meshLength meshConstructor w) :=
  construct_none_not_mem_of_isSome meshConstructor hctor _
    (fun x hx => mem_ctorRun meshConstructor _ _ x hx) _
    (BuildSplineMeshes_pool E spline mesh meshLength meshConstructor w).2.2

theorem BuildSplineMeshesCapped_no_null_of_isSome (E : Engine) (spline : USplineComponent)
    (mesh : UStaticMesh) (meshLength : ℚ) (maxNumMeshes : ℤ)
    (meshConstructor : Nat → Option Handle) (w : World)
    (hctor : ∀ k, (meshConstructor k).isSome = true) :
    Effect.Construct none ∉
      callLog w (BuildSplineMeshesCapped E spline mesh meshLength maxNumMeshes
        meshConstructor w) :=
  construct_none_not_mem_of_isSome meshConstructor hctor _
    (fun x hx => mem_ctorRun meshConstructor _ _ x hx) _
    (BuildSplineMeshesCapped_pool E spline mesh meshLength maxNumMeshes meshConstructor
      w).2.2

/-- C9, amended, at `L = 300`, `S = 100`, the pool `[1]` and a constructor that never
fails (cap 2 for the overload with a cap): the second call leaves pool and constructor
count as the first call left them. -/
theorem C9_second_call_repeats_witness :
    (0 : ℚ) < 100 ∧
    Effect.Construct none ∉ callLog (worldOfPool [1])
      (BuildSplineMeshes unitEngine (straightSpline 300) 7 100 (freshConstructor 100)
        (worldOfPool [1])) ∧
    Effect.Construct none ∉ callLog (worldOfPool [1])
      (BuildSplineMeshesCapped unitEngine (straightSpline 300) 7 100 2
        (freshConstructor 100) (worldOfPool [1])) ∧
    (BuildSplineMeshes unitEngine (straightSpline 300) 7 100 (freshConstructor 100)
      (BuildSplineMeshes unitEngine (straightSpline 300) 7 100 (freshConstructor 100)
        (worldOfPool [1]))).meshPool =
      (BuildSplineMeshes unitEngine (straightSpline 300) 7 100 (freshConstructor 100)
        (worldOfPool [1])).meshPool ∧
    (BuildSplineMeshes unitEngine (straightSpline 300) 7 100 (freshConstructor 100)
      (BuildSplineMeshes unitEngine (straightSpline 300) 7 100 (freshConstructor 100)
        (worldOfPool [1]))).ctorCalls =
      (BuildSplineMeshes unitEngine (straightSpline 300) 7 100 (freshConstructor 100)
        (worldOfPool [1])).ctorCalls ∧
    (BuildSplineMeshesCapped unitEngine (straightSpline 300) 7 100 2 (freshConstructor 100)
      (BuildSplineMeshesCapped unitEngine (straightSpline 300) 7 100 2
        (freshConstructor 100) (worldOfPool [1]))).meshPool =
      (BuildSplineMeshesCapped unitEngine (straightSpline 300) 7 100 2
        (freshConstructor 100) (worldOfPool [1])).meshPool :=
  have h1 := BuildSplineMeshes_no_null_of_isSome unitEngine (straightSpline 300) 7 100
    (freshConstructor 100) (worldOfPool [1]) (fun _ => rfl)
  have h2 := BuildSplineMeshesCapped_no_null_of_isSome unitEngine (straightSpline 300) 7 100
    2 (freshConstructor 100) (worldOfPool [1]) (fun _ => rfl)
  ⟨by norm_num, h1, h2,
    ((C9_second_call_repeats unitEngine (straightSpline 300) 7 100 2 (freshConstructor 100)
      (worldOfPool [1]) (by norm_num)).1 h1).1,
    ((C9_second_call_repeats unitEngine (straightSpline 300) 7 100 2 (freshConstructor 100)
      (worldOfPool [1]) (by norm_num)).1 h1).2.1,
    ((C9_second_call_repeats unitEngine (straightSpline 300) 7 100 2 (freshConstructor 100)
      (worldOfPool [1]) (by norm_num)).2 h2).1⟩

/-! ## Is the pool ever left empty? -/

theorem ctorRun_reduceOption_pos_iff (meshConstructor : Nat → Option Handle) (c d : Nat) :
    1 ≤ (ctorRun meshConstructor c d).reduceOption.length ↔
      (1 ≤ d ∧ (meshConstructor c).isSome = true) := by
  cases d with
  | zero => simp [ctorRun]
  | succ d =>
    cases hc : meshConstructor c with
    | none => simp [ctorRun, hc, List.reduceOption]
    | some m => simp [ctorRun, hc, List.reduceOption_cons_of_some]

/-- C10, as stated, fails for both overloads: on an empty pool with `L = 1000`,
`S = 100`, the overload without a cap leaves the pool empty when the first constructor
invocation returns null, and the overload with a cap leaves it empty when the cap is 0,
even with a constructor that never fails. -/
theorem C10_counterexample :
    (0 : ℚ) < (straightSpline 1000).GetSplineLength ∧
    (BuildSplineMeshes unitEngine (straightSpline 1000) 7 100 (failingAt 100 0)
      (worldOfPool [])).meshPool = [] ∧
    (∀ k, (freshConstructor 100 k).isSome = true) ∧
    (BuildSplineMeshesCapped unitEngine (straightSpline 1000) 7 100 0 (freshConstructor 100)
      (worldOfPool [])).meshPool = [] := by
  obtain ⟨hp1, _, _⟩ := BuildSplineMeshes_pool unitEngine (straightSpline 1000) 7 100
    (failingAt 100 0) (worldOfPool [])
  obtain ⟨hp2, _, _⟩ := BuildSplineMeshesCapped_pool unitEngine (straightSpline 1000) 7 100
    0 (freshConstructor 100) (worldOfPool [])
  rw [numMeshes_1000] at hp1 hp2
  refine ⟨by norm_num [straightSpline], ?_, fun _ => rfl, ?_⟩
  · rw [hp1]
    rfl
  · rw [hp2]
    rfl

/-- C10, amended: for a spline of positive length and a positive mesh length the target
count is at least 1, and the pool after the call is non-empty exactly when it was
non-empty before the call or the first constructor invocation of the call returns a
component, which in the overload with a cap also needs a cap of at least 1. -/
theorem C10_pool_nonempty_iff (E : Engine) (spline : USplineComponent) (mesh : UStaticMesh)
    (meshLength : ℚ) (maxNumMeshes : ℤ) (meshConstructor : Nat → Option Handle) (w : World)
    (hL : 0 < spline.GetSplineLength) (hS : 0 < meshLength) :
    1 ≤ numMeshes E spline.GetSplineLength meshLength ∧
    (1 ≤ (BuildSplineMeshes E spline mesh meshLength meshConstructor w).meshPool.length ↔
      (w.meshPool ≠ [] ∨ (meshConstructor w.ctorCalls).isSome = true)) ∧
    (1 ≤ (BuildSplineMeshesCapped E spline mesh meshLength maxNumMeshes meshConstructor
        w).meshPool.length ↔
      (w.meshPool ≠ [] ∨
        ((meshConstructor w.ctorCalls).isSome = true ∧ 1 ≤ maxNumMeshes))) := by
  have _hpos : 0 < spline.GetSplineLength / meshLength := div_pos hL hS
  have hn := one_le_numMeshes E spline.GetSplineLength meshLength
  obtain ⟨hp1, _, _⟩ := BuildSplineMeshes_pool E spline mesh meshLength meshConstructor w
  obtain ⟨hp2, _, _⟩ :=
    BuildSplineMeshesCapped_pool E spline mesh meshLength maxNumMeshes meshConstructor w
  have hne : w.meshPool ≠ [] ↔ 1 ≤ w.meshPool.length := by
    cases w.meshPool with
    | nil => simp
    | cons a l => simp
  refine ⟨hn, ?_, ?_⟩
  · rw [hp1, List.length_append, List.length_take, hne]
    have hiff := ctorRun_reduceOption_pos_iff meshConstructor w.ctorCalls
      (numMeshes E spline.GetSplineLength meshLength - (w.meshPool.length : ℤ)).toNat
    constructor
    · intro h
      by_cases h0 : 1 ≤ w.meshPool.length
      · exact Or.inl h0
      · right
        have : 1 ≤ (ctorRun meshConstructor w.ctorCalls
            (numMeshes E spline.GetSplineLength meshLength -
              (w.meshPool.length : ℤ)).toNat).reduceOption.length := by omega
        exact (hiff.1 this).2
    · rintro (h0 | hs)
      · omega
      · by_cases h0 : 1 ≤ w.meshPool.length
        · omega
        · have := hiff.2 ⟨by omega, hs⟩
          omega
  · rw [hp2, List.length_append, List.length_take, hne]
    have hiff := ctorRun_reduceOption_pos_iff meshConstructor w.ctorCalls
      (min (numMeshes E spline.GetSplineLength meshLength) maxNumMeshes -
        (w.meshPool.length : ℤ)).toNat
    constructor
    · intro h
      by_cases h0 : 1 ≤ w.meshPool.length
      · exact Or.inl h0
      · right
        have : 1 ≤ (ctorRun meshConstructor w.ctorCalls
            (min (numMeshes E spline.GetSplineLength meshLength) maxNumMeshes -
              (w.meshPool.length : ℤ)).toNat).reduceOption.length := by omega
        have h2 := hiff.1 this
        exact ⟨h2.2, by omega⟩
    · rintro (h0 | ⟨hs, hc⟩)
      · omega
      · by_cases h0 : 1 ≤ w.meshPool.length
        · omega
        · have := hiff.2 ⟨by omega, hs⟩
          omega

/-- C10, amended, at `L = 50`, `S = 100` (a spline shorter than the mesh), an empty pool
and a constructor that never fails: the target count is 1 and both overloads (cap 1)
leave a non-empty pool. -/
theorem C10_pool_nonempty_iff_witness :
    (0 : ℚ) < (straightSpline 50).GetSplineLength ∧ (0 : ℚ) < 100 ∧
    1 ≤ (BuildSplineMeshes unitEngine (straightSpline 50) 7 100 (freshConstructor 100)
      (worldOfPool [])).meshPool.length ∧
    1 ≤ (BuildSplineMeshesCapped unitEngine (straightSpline 50) 7 100 1
      (freshConstructor 100) (worldOfPool [])).meshPool.length :=
  have h1 : (0 : ℚ) < (straightSpline 50).GetSplineLength := by norm_num [straightSpline]
  ⟨h1, by norm_num,
    (C10_pool_nonempty_iff unitEngine (straightSpline 50) 7 100 1 (freshConstructor 100)
      (worldOfPool []) h1 (by norm_num)).2.1.2 (Or.inr rfl),
    (C10_pool_nonempty_iff unitEngine (straightSpline 50) 7 100 1 (freshConstructor 100)
      (worldOfPool []) h1 (by norm_num)).2.2.2 (Or.inr ⟨rfl, by norm_num⟩)⟩

/-! ## What the cap does and does not do -/

theorem BuildSplineMeshesCapped_destroys (E : Engine) (spline : USplineComponent)
    (mesh : UStaticMesh) (meshLength : ℚ) (maxNumMeshes : ℤ)
    (meshConstructor : Nat → Option Handle) (w : World) :
    (callLog w (BuildSplineMeshesCapped E spline mesh meshLength maxNumMeshes
        meshConstructor w)).filter Effect.isDestroy =
      (w.meshPool.drop (numMeshes E spline.GetSplineLength meshLength).toNat).reverse.map
        Effect.DestroyComponent := by
  have hn : (0 : ℤ) ≤ numMeshes E spline.GetSplineLength meshLength :=
    le_trans (by norm_num) (one_le_numMeshes _ _ _)
  rw [BuildSplineMeshesCapped_eq, adjustPoolCapped_eq meshConstructor _ maxNumMeshes hn w]
  simp only [callLog, List.append_assoc, List.drop_left, List.filter_append,
    filter_isDestroy_layoutFrom, filter_isDestroy_map_register,
    filter_isDestroy_map_destroy, filter_isDestroy_map_construct, List.append_nil]

theorem numMeshes_300 : numMeshes unitEngine (straightSpline 300).GetSplineLength 100 = 3 :=
  numMeshes_eq_of_bounds _ _ _ (by norm_num) (by norm_num) (by norm_num) (by norm_num [straightSpline])
    (by norm_num [straightSpline])

/-- C11, as stated, fails in its last part: with `L = 300`, `S = 100` (target 3), the
cap 5, a constructor that never fails and a reused pool of 10 components, which is larger
than the cap, the overload with a cap leaves the pool `[1, 2, 3]`, which is not larger
than the cap. -/
theorem C11_counterexample :
    (∀ k, (freshConstructor 100 k).isSome = true) ∧
    (5 : ℤ) < ((worldOfPool [1, 2, 3, 4, 5, 6, 7, 8, 9, 10]).meshPool.length : ℤ) ∧
    (BuildSplineMeshesCapped unitEngine (straightSpline 300) 7 100 5 (freshConstructor 100)
      (worldOfPool [1, 2, 3, 4, 5, 6, 7, 8, 9, 10])).meshPool = [1, 2, 3] ∧
    ¬ ((5 : ℤ) <
      ((BuildSplineMeshesCapped unitEngine (straightSpline 300) 7 100 5
        (freshConstructor 100)
        (worldOfPool [1, 2, 3, 4, 5, 6, 7, 8, 9, 10])).meshPool.length : ℤ)) := by
  obtain ⟨hp, _, _⟩ := BuildSplineMeshesCapped_pool unitEngine (straightSpline 300) 7 100 5
    (freshConstructor 100) (worldOfPool [1, 2, 3, 4, 5, 6, 7, 8, 9, 10])
  rw [numMeshes_300] at hp
  have hpv : (BuildSplineMeshesCapped unitEngine (straightSpline 300) 7 100 5
      (freshConstructor 100)
      (worldOfPool [1, 2, 3, 4, 5, 6, 7, 8, 9, 10])).meshPool = [1, 2, 3] := by
    rw [hp]
    rfl
  refine ⟨fun _ => rfl, by decide, hpv, ?_⟩
  rw [hpv]
  decide

/-- C11, amended: for every starting pool of `N` components, every cap `C` (any integer)
and a mesh constructor that never returns null, with `T = max(1, round(L/S))` (division
and rounding as the code computes them), the overload with a cap leaves a pool of size
`T` when `N > T` and of size
`max(N, min(T, C))` otherwise. Its `DestroyComponent` calls are one per pool entry beyond
the first `T`, last first, whatever the cap is: the cap only limits growth. A reused
pool larger than the cap stays larger than the cap exactly when the cap is below `T`. -/
theorem C11_capped_size_formula (E : Engine) (spline : USplineComponent)
    (mesh : UStaticMesh) (meshLength : ℚ) (maxNumMeshes : ℤ)
    (meshConstructor : Nat → Option Handle) (w : World)
    (hctor : ∀ k, (meshConstructor k).isSome = true) :
    ((BuildSplineMeshesCapped E spline mesh meshLength maxNumMeshes meshConstructor
        w).meshPool.length : ℤ) =
      (if (w.meshPool.length : ℤ) > max 1 (E.RoundToInt
          (E.FloatDiv spline.GetSplineLength meshLength)) then
        max 1 (E.RoundToInt (E.FloatDiv spline.GetSplineLength meshLength))
      else max (w.meshPool.length : ℤ)
        (min (max 1 (E.RoundToInt (E.FloatDiv spline.GetSplineLength meshLength))) maxNumMeshes)) ∧
    (callLog w (BuildSplineMeshesCapped E spline mesh meshLength maxNumMeshes
        meshConstructor w)).filter Effect.isDestroy =
      (w.meshPool.drop
        (max 1 (E.RoundToInt (E.FloatDiv spline.GetSplineLength meshLength))).toNat).reverse.map
        Effect.DestroyComponent ∧
    (maxNumMeshes < (w.meshPool.length : ℤ) →
      (maxNumMeshes <
          ((BuildSplineMeshesCapped E spline mesh meshLength maxNumMeshes meshConstructor
            w).meshPool.length : ℤ) ↔
        maxNumMeshes < max 1 (E.RoundToInt (E.FloatDiv spline.GetSplineLength meshLength)))) := by
  have hlen := BuildSplineMeshesCapped_length_of_isSome E spline mesh meshLength
    maxNumMeshes meshConstructor w hctor
  have hT : numMeshes E spline.GetSplineLength meshLength =
      max 1 (E.RoundToInt (E.FloatDiv spline.GetSplineLength meshLength)) := rfl
  rw [hT] at hlen
  refine ⟨?_, ?_, ?_⟩
  · rw [hlen]
  · have := BuildSplineMeshesCapped_destroys E spline mesh meshLength maxNumMeshes
      meshConstructor w
    rw [hT] at this
    exact this
  · intro hN
    rw [hlen]
    split <;> omega

/-- C11, amended, at `L = 1000`, `S = 100` (target 10), cap 4 and a reused pool of 6
components: the pool keeps its 6 components. -/
theorem C11_capped_size_formula_witness :
    (∀ k, (freshConstructor 100 k).isSome = true) ∧
    ((BuildSplineMeshesCapped unitEngine (straightSpline 1000) 7 100 4 (freshConstructor 100)
      (worldOfPool [1, 2, 3, 4, 5, 6])).meshPool.length : ℤ) = 6 := by
  have hT : max (1 : ℤ) (unitEngine.RoundToInt
      (unitEngine.FloatDiv (straightSpline 1000).GetSplineLength 100)) = 10 :=
    numMeshes_1000
  have h := (C11_capped_size_formula unitEngine (straightSpline 1000) 7 100 4
    (freshConstructor 100) (worldOfPool [1, 2, 3, 4, 5, 6]) (fun _ => rfl)).1
  rw [hT] at h
  have h6 : ((worldOfPool [1, 2, 3, 4, 5, 6]).meshPool.length : ℤ) = 6 := rfl
  rw [h6] at h
  norm_num at h
  exact ⟨fun _ => rfl, h⟩

/-! ## The two overloads when the cap does not bind -/

theorem adjustPoolCapped_eq_adjustPool (meshConstructor : Nat → Option Handle)
    (n maxNumMeshes : ℤ) (hn : 0 ≤ n) (hcap : n ≤ maxNumMeshes) (w : World) :
    adjustPoolCapped meshConstructor n maxNumMeshes w = adjustPool meshConstructor n w := by
  rw [adjustPoolCapped_eq meshConstructor n maxNumMeshes hn w,
    adjustPool_eq meshConstructor n hn w, min_eq_left hcap]

/-- C12: for a mesh length `S > 0` and a cap `maxNumMeshes ≥ max(1, round(L/S))`
(division and rounding as the code computes them, the same in both overloads), the
overload with a cap leaves exactly the world the overload without a cap leaves, whatever
the spline, the starting world and the behaviour of the mesh constructor: the same pool,
the same registered components, the same number of constructor invocations and the same
log, so the same constructor results, `DestroyComponent`, `SetStartAndEnd`,
`SetStaticMesh` and `RegisterComponent` calls in the same order. -/
theorem C12_overloads_agree (E : Engine) (spline : USplineComponent) (mesh : UStaticMesh)
    (meshLength : ℚ) (maxNumMeshes : ℤ) (meshConstructor : Nat → Option Handle) (w : World)
    (hS : 0 < meshLength)
    (hcap : max 1 (E.RoundToInt (E.FloatDiv spline.GetSplineLength meshLength)) ≤ maxNumMeshes) :
    BuildSplineMeshesCapped E spline mesh meshLength maxNumMeshes meshConstructor w =
      BuildSplineMeshes E spline mesh meshLength meshConstructor w := by
  have _hS := hS
  have hn : (0 : ℤ) ≤ numMeshes E spline.GetSplineLength meshLength :=
    le_trans (by norm_num) (one_le_numMeshes _ _ _)
  have hcap2 : numMeshes E spline.GetSplineLength meshLength ≤ maxNumMeshes := hcap
  rw [BuildSplineMeshesCapped_eq, BuildSplineMeshes_eq,
    adjustPoolCapped_eq_adjustPool meshConstructor _ maxNumMeshes hn hcap2 w]

/-- C12 at `L = 300`, `S = 100` (target 3), cap 3, the pool `[1]` and a constructor that
returns null at its second invocation: both overloads leave the same world. -/
theorem C12_overloads_agree_witness :
    (0 : ℚ) < 100 ∧
    max 1 (unitEngine.RoundToInt
        (unitEngine.FloatDiv (straightSpline 300).GetSplineLength 100)) ≤ (3 : ℤ) ∧
    BuildSplineMeshesCapped unitEngine (straightSpline 300) 7 100 3 (failingAt 100 1)
        (worldOfPool [1]) =
      BuildSplineMeshes unitEngine (straightSpline 300) 7 100 (failingAt 100 1)
        (worldOfPool [1]) :=
  have h2 : max 1 (unitEngine.RoundToInt
      (unitEngine.FloatDiv (straightSpline 300).GetSplineLength 100)) ≤ (3 : ℤ) :=
    le_of_eq numMeshes_300
  ⟨by norm_num, h2,
    C12_overloads_agree unitEngine (straightSpline 300) 7 100 3 (failingAt 100 1)
      (worldOfPool [1]) (by norm_num) h2⟩

/-! ## Foundation side normals -/

theorem normals_of_sides :
    GetLocalSpaceNormalFromFoundationSide EFoundationSide.FoundationFront =
        FVector.ForwardVector ∧
    GetLocalSpaceNormalFromFoundationSide EFoundationSide.FoundationRight =
        FVector.RightVector ∧
    GetLocalSpaceNormalFromFoundationSide EFoundationSide.FoundationBack =
        FVector.BackwardVector ∧
    GetLocalSpaceNormalFromFoundationSide EFoundationSide.FoundationLeft =
        FVector.LeftVector ∧
    GetLocalSpaceNormalFromFoundationSide EFoundationSide.FoundationTop =
        FVector.UpVector ∧
    GetLocalSpaceNormalFromFoundationSide EFoundationSide.FoundationBottom =
        FVector.DownVector := by
  refine ⟨?_, ?_, ?_, ?_, ?_, ?_⟩ <;>
    simp [GetLocalSpaceNormalFromFoundationSide, EFoundationSide.FoundationFront,
      EFoundationSide.FoundationRight, EFoundationSide.FoundationBack,
      EFoundationSide.FoundationLeft, EFoundationSide.FoundationTop,
      EFoundationSide.FoundationBottom]

/-- C13: `GetLocalSpaceNormalFromFoundationSide` gives the six foundation sides six
different vectors, each along one coordinate axis and of length 1, with
`Back = -Front`, `Left = -Right` and `Bottom = -Top`; and for any value of the
enumeration type, `FoundationNumSides` and the values that are no enumerator included, it
returns the zero vector exactly when the value is none of the six sides. -/
theorem C13_foundation_side_normals :
    (foundationSides.map GetLocalSpaceNormalFromFoundationSide).Nodup ∧
    (∀ s ∈ foundationSides, (GetLocalSpaceNormalFromFoundationSide s).IsAxisUnit) ∧
    GetLocalSpaceNormalFromFoundationSide EFoundationSide.FoundationBack =
      (GetLocalSpaceNormalFromFoundationSide EFoundationSide.FoundationFront).neg ∧
    GetLocalSpaceNormalFromFoundationSide EFoundationSide.FoundationLeft =
      (GetLocalSpaceNormalFromFoundationSide EFoundationSide.FoundationRight).neg ∧
    GetLocalSpaceNormalFromFoundationSide EFoundationSide.FoundationBottom =
      (GetLocalSpaceNormalFromFoundationSide EFoundationSide.FoundationTop).neg ∧
    GetLocalSpaceNormalFromFoundationSide EFoundationSide.FoundationNumSides =
      FVector.ZeroVector ∧
    (∀ s : EFoundationSide,
      GetLocalSpaceNormalFromFoundationSide s = FVector.ZeroVector ↔ s ∉ foundationSides) := by
  obtain ⟨h0, h1, h2, h3, h4, h5⟩ := normals_of_sides
  refine ⟨?_, ?_, ?_, ?_, ?_, ?_, ?_⟩
  · simp only [foundationSides, List.map_cons, List.map_nil, h0, h1, h2, h3, h4, h5]
    simp [FVector.ForwardVector, FVector.RightVector, FVector.BackwardVector,
      FVector.LeftVector, FVector.UpVector, FVector.DownVector]
    norm_num
  · intro s hs
    simp only [foundationSides, List.mem_cons, List.mem_singleton, List.not_mem_nil,
      or_false] at hs
    rcases hs with rfl | rfl | rfl | rfl | rfl | rfl
    · rw [h0]; simp [FVector.IsAxisUnit, FVector.ForwardVector]
    · rw [h1]; simp [FVector.IsAxisUnit, FVector.RightVector]
    · rw [h2]; simp [FVector.IsAxisUnit, FVector.BackwardVector]
    · rw [h3]; simp [FVector.IsAxisUnit, FVector.LeftVector]
    · rw [h4]; simp [FVector.IsAxisUnit, FVector.UpVector]
    · rw [h5]; simp [FVector.IsAxisUnit, FVector.DownVector]
  · rw [h2, h0]; simp [FVector.neg, FVector.ForwardVector, FVector.BackwardVector]
  · rw [h3, h1]; simp [FVector.neg, FVector.RightVector, FVector.LeftVector]
  · rw [h5, h4]; simp [FVector.neg, FVector.UpVector, FVector.DownVector]
  · simp [GetLocalSpaceNormalFromFoundationSide, EFoundationSide.FoundationFront,
      EFoundationSide.FoundationRight, EFoundationSide.FoundationBack,
      EFoundationSide.FoundationLeft, EFoundationSide.FoundationTop,
      EFoundationSide.FoundationBottom, EFoundationSide.FoundationNumSides]
  · intro s
    unfold GetLocalSpaceNormalFromFoundationSide
    simp only [foundationSides, List.mem_cons, List.mem_singleton, List.not_mem_nil,
      or_false]
    split_ifs with c0 c1 c2 c3 c4 c5
    · simp [c0, FVector.ForwardVector, FVector.ZeroVector]
    · simp [c1, FVector.RightVector, FVector.ZeroVector]
    · simp [c2, FVector.BackwardVector, FVector.ZeroVector]
    · simp [c3, FVector.LeftVector, FVector.ZeroVector]
    · simp [c4, FVector.UpVector, FVector.ZeroVector]
    · simp [c5, FVector.DownVector, FVector.ZeroVector]
    · simp [c0, c1, c2, c3, c4, c5]

/-! ## The slices of the layout pass -/

theorem head?_zipWith_range (f : Nat → Handle → Effect) (l : List Handle) :
    (List.zipWith f (List.range l.length) l).head? = l.head?.map (f 0) := by
  cases l with
  | nil => rfl
  | cons a t => simp [List.range_succ_eq_map]

theorem getLast?_zipWith_range (f : Nat → Handle → Effect) (l : List Handle) :
    (List.zipWith f (List.range l.length) l).getLast? =
      l.getLast?.map (f (l.length - 1)) := by
  induction l using List.reverseRecOn with
  | nil => rfl
  | append_singleton t a _ =>
    rw [List.length_append, List.length_singleton, List.range_succ,
      List.zipWith_append _ _ _ _ _ (by simp)]
    simp

theorem poseCall_eq (E : Engine) (spline : USplineComponent) (segmentLength : ℚ) :
    (fun (i : Nat) (m : Handle) => poseCall E spline segmentLength i m) =
      (fun (i : Nat) (m : Handle) =>
        Effect.SetStartAndEnd m
          (spline.GetLocationAtDistanceAlongSpline ((i : ℚ) * segmentLength) .Local)
          ((E.GetSafeNormal (spline.GetTangentAtDistanceAlongSpline ((i : ℚ) * segmentLength) .Local)).mul
            (segmentLength))
          (spline.GetLocationAtDistanceAlongSpline (((i : ℚ) + 1) * segmentLength) .Local)
          ((E.GetSafeNormal (spline.GetTangentAtDistanceAlongSpline (((i : ℚ) + 1) * segmentLength) .Local)).mul
            (segmentLength))
          true) := by
  funext i m
  simp only [poseCall, startDistance, endDistance]
  push_cast
  rfl

/-- C5: for a spline of length `L > 0` and a mesh length `S > 0`, when the pool left by
the overload without a cap has `n = max(1, round(L/S))` components (division and rounding
as the code computes them), the `SetStartAndEnd` calls of the call are, in order, one per
pool index `i < n`, on the component at that index, with the positions and tangents of
the spline at the distances `i * (L/n)` and `(i + 1) * (L/n)`, tangents scaled to `L/n`.
The first call starts at the distance 0, the last call ends at the distance `L`, the end
distance of every index is the start distance of the next, and the lengths of the `n`
slices add up to `L`. Distances are in exact arithmetic. -/
theorem C5_uniform_slices (E : Engine) (spline : USplineComponent) (mesh : UStaticMesh)
    (meshLength : ℚ) (meshConstructor : Nat → Option Handle) (w : World) (n : Nat)
    (hL : 0 < spline.GetSplineLength) (hS : 0 < meshLength)
    (hn : (n : ℤ) = max 1 (E.RoundToInt (E.FloatDiv spline.GetSplineLength meshLength)))
    (hlen : (BuildSplineMeshes E spline mesh meshLength meshConstructor w).meshPool.length
      = n) :
    (callLog w (BuildSplineMeshes E spline mesh meshLength meshConstructor w)).filter
        Effect.isSetStartAndEnd =
      List.zipWith
        (fun (i : Nat) (m : Handle) =>
          Effect.SetStartAndEnd m
            (spline.GetLocationAtDistanceAlongSpline ((i : ℚ) * (spline.GetSplineLength / (n : ℚ))) .Local)
            ((E.GetSafeNormal (spline.GetTangentAtDistanceAlongSpline ((i : ℚ) * (spline.GetSplineLength / (n : ℚ))) .Local)).mul
              (spline.GetSplineLength / (n : ℚ)))
            (spline.GetLocationAtDistanceAlongSpline (((i : ℚ) + 1) * (spline.GetSplineLength / (n : ℚ))) .Local)
            ((E.GetSafeNormal (spline.GetTangentAtDistanceAlongSpline (((i : ℚ) + 1) * (spline.GetSplineLength / (n : ℚ))) .Local)).mul
              (spline.GetSplineLength / (n : ℚ)))
            true)
        (List.range n)
        (BuildSplineMeshes E spline mesh meshLength meshConstructor w).meshPool ∧
    ((callLog w (BuildSplineMeshes E spline mesh meshLength meshConstructor w)).filter
        Effect.isSetStartAndEnd).head? =
      (BuildSplineMeshes E spline mesh meshLength meshConstructor w).meshPool.head?.map
        (fun m =>
          Effect.SetStartAndEnd m
            (spline.GetLocationAtDistanceAlongSpline (0) .Local)
            ((E.GetSafeNormal (spline.GetTangentAtDistanceAlongSpline (0) .Local)).mul
              (spline.GetSplineLength / (n : ℚ)))
            (spline.GetLocationAtDistanceAlongSpline (spline.GetSplineLength / (n : ℚ)) .Local)
            ((E.GetSafeNormal (spline.GetTangentAtDistanceAlongSpline (spline.GetSplineLength / (n : ℚ)) .Local)).mul
              (spline.GetSplineLength / (n : ℚ)))
            true) ∧
    ((callLog w (BuildSplineMeshes E spline mesh meshLength meshConstructor w)).filter
        Effect.isSetStartAndEnd).getLast? =
      (BuildSplineMeshes E spline mesh meshLength meshConstructor w).meshPool.getLast?.map
        (fun m =>
          Effect.SetStartAndEnd m
            (spline.GetLocationAtDistanceAlongSpline (spline.GetSplineLength - spline.GetSplineLength / (n : ℚ)) .Local)
            ((E.GetSafeNormal (spline.GetTangentAtDistanceAlongSpline (spline.GetSplineLength - spline.GetSplineLength / (n : ℚ)) .Local)).mul
              (spline.GetSplineLength / (n : ℚ)))
            (spline.GetLocationAtDistanceAlongSpline (spline.GetSplineLength) .Local)
            ((E.GetSafeNormal (spline.GetTangentAtDistanceAlongSpline (spline.GetSplineLength) .Local)).mul
              (spline.GetSplineLength / (n : ℚ)))
            true) ∧
    (∀ i : Nat, ((i : ℚ) + 1) * (spline.GetSplineLength / (n : ℚ)) = ((i + 1 : Nat) : ℚ) * (spline.GetSplineLength / (n : ℚ))) ∧
    ((List.range n).map
      (fun i : Nat => ((i : ℚ) + 1) * (spline.GetSplineLength / (n : ℚ)) - (i : ℚ) * (spline.GetSplineLength / (n : ℚ)))).sum =
      spline.GetSplineLength := by
  have _hpos : 0 < spline.GetSplineLength / meshLength := div_pos hL hS
  have hnum : numMeshes E spline.GetSplineLength meshLength = (n : ℤ) := by
    rw [hn]
    rfl
  have hn1 : 1 ≤ n := by
    have : (1 : ℤ) ≤ (n : ℤ) := by
      rw [hn]
      exact le_max_left _ _
    exact_mod_cast this
  have hq : (n : ℚ) ≠ 0 := by
    have : (0 : ℚ) < (n : ℚ) := by exact_mod_cast hn1
    exact ne_of_gt this
  have hzip := BuildSplineMeshes_poses E spline mesh meshLength meshConstructor w
  rw [hnum, Int.cast_natCast, poseCall_eq] at hzip
  have hlast1 : (((n - 1 : Nat) : ℚ) + 1) * (spline.GetSplineLength / (n : ℚ)) = spline.GetSplineLength := by
    have : (((n - 1 : Nat) : ℚ) + 1) = (n : ℚ) := by
      have := Nat.sub_add_cancel hn1
      exact_mod_cast this
    rw [this]
    exact mul_div_cancel₀ _ hq
  have hlast0 : ((n - 1 : Nat) : ℚ) * (spline.GetSplineLength / (n : ℚ)) = spline.GetSplineLength - spline.GetSplineLength / (n : ℚ) := by
    have h : ((n - 1 : Nat) : ℚ) * (spline.GetSplineLength / (n : ℚ)) =
        (((n - 1 : Nat) : ℚ) + 1) * (spline.GetSplineLength / (n : ℚ)) -
          spline.GetSplineLength / (n : ℚ) := by ring
    rw [h, hlast1]
  refine ⟨?_, ?_, ?_, ?_, ?_⟩
  · rw [hzip, hlen]
  · rw [hzip, head?_zipWith_range]
    congr 1
    funext m
    simp
  · rw [hzip, getLast?_zipWith_range, hlen]
    congr 1
    funext m
    simp only [hlast0, hlast1]
  · intro i
    push_cast
    rfl
  · have hsum := sum_slice_lengths (spline.GetSplineLength / (n : ℚ)) n
    simp only [endDistance, startDistance] at hsum
    push_cast at hsum
    rw [hsum]
    exact mul_div_cancel₀ _ hq

/-- C5 on the scenario of the specification: `L = 1000`, `S = 100`, an empty pool and a
constructor that never fails. The 10 components created get the 10 slices of length 100
from 0 to 1000: on the straight spline, whose position at a distance is that distance
along X, the `SetStartAndEnd` calls go from position 0 to position 1000 without gap. -/
theorem C5_uniform_slices_witness :
    (0 : ℚ) < (straightSpline 1000).GetSplineLength ∧ (0 : ℚ) < 100 ∧
    ((10 : Nat) : ℤ) =
      max 1 (unitEngine.RoundToInt
        (unitEngine.FloatDiv (straightSpline 1000).GetSplineLength 100)) ∧
    (BuildSplineMeshes unitEngine (straightSpline 1000) 7 100 (freshConstructor 100)
        (worldOfPool [])).meshPool.length = 10 ∧
    (callLog (worldOfPool [])
      (BuildSplineMeshes unitEngine (straightSpline 1000) 7 100 (freshConstructor 100)
        (worldOfPool []))).filter Effect.isSetStartAndEnd =
      [Effect.SetStartAndEnd 100 ⟨0, 0, 0⟩ ⟨100, 0, 0⟩ ⟨100, 0, 0⟩ ⟨100, 0, 0⟩ true,
       Effect.SetStartAndEnd 101 ⟨100, 0, 0⟩ ⟨100, 0, 0⟩ ⟨200, 0, 0⟩ ⟨100, 0, 0⟩ true,
       Effect.SetStartAndEnd 102 ⟨200, 0, 0⟩ ⟨100, 0, 0⟩ ⟨300, 0, 0⟩ ⟨100, 0, 0⟩ true,
       Effect.SetStartAndEnd 103 ⟨300, 0, 0⟩ ⟨100, 0, 0⟩ ⟨400, 0, 0⟩ ⟨100, 0, 0⟩ true,
       Effect.SetStartAndEnd 104 ⟨400, 0, 0⟩ ⟨100, 0, 0⟩ ⟨500, 0, 0⟩ ⟨100, 0, 0⟩ true,
       Effect.SetStartAndEnd 105 ⟨500, 0, 0⟩ ⟨100, 0, 0⟩ ⟨600, 0, 0⟩ ⟨100, 0, 0⟩ true,
       Effect.SetStartAndEnd 106 ⟨600, 0, 0⟩ ⟨100, 0, 0⟩ ⟨700, 0, 0⟩ ⟨100, 0, 0⟩ true,
       Effect.SetStartAndEnd 107 ⟨700, 0, 0⟩ ⟨100, 0, 0⟩ ⟨800, 0, 0⟩ ⟨100, 0, 0⟩ true,
       Effect.SetStartAndEnd 108 ⟨800, 0, 0⟩ ⟨100, 0, 0⟩ ⟨900, 0, 0⟩ ⟨100, 0, 0⟩ true,
       Effect.SetStartAndEnd 109 ⟨900, 0, 0⟩ ⟨100, 0, 0⟩ ⟨1000, 0, 0⟩ ⟨100, 0, 0⟩ true] ∧
    ((List.range 10).map
      (fun i : Nat =>
        ((i : ℚ) + 1) * ((straightSpline 1000).GetSplineLength / ((10 : Nat) : ℚ)) -
          (i : ℚ) * ((straightSpline 1000).GetSplineLength / ((10 : Nat) : ℚ)))).sum =
      1000 :=
  have h1 : (0 : ℚ) < (straightSpline 1000).GetSplineLength := by norm_num [straightSpline]
  have h3 : ((10 : Nat) : ℤ) =
      max 1 (unitEngine.RoundToInt
        (unitEngine.FloatDiv (straightSpline 1000).GetSplineLength 100)) :=
    numMeshes_1000_100.symm
  have hpool : (BuildSplineMeshes unitEngine (straightSpline 1000) 7 100 (freshConstructor 100)
        (worldOfPool [])).meshPool =
      [100, 101, 102, 103, 104, 105, 106, 107, 108, 109] := by
    have h := (BuildSplineMeshes_pool unitEngine (straightSpline 1000) 7 100
      (freshConstructor 100) (worldOfPool [])).1
    rw [numMeshes_1000_100] at h
    rw [h]
    rfl
  have h4 : (BuildSplineMeshes unitEngine (straightSpline 1000) 7 100 (freshConstructor 100)
        (worldOfPool [])).meshPool.length = 10 := by
    rw [hpool]
    rfl
  ⟨h1, by norm_num, h3, h4,
    by
      have hz := (C5_uniform_slices unitEngine (straightSpline 1000) 7 100
        (freshConstructor 100) (worldOfPool []) 10 h1 (by norm_num) h3 h4).1
      rw [hpool] at hz
      rw [hz]
      simp [List.range, List.range.loop, straightSpline, unitEngine, FVector.mul]
      norm_num,
    (C5_uniform_slices unitEngine (straightSpline 1000) 7 100 (freshConstructor 100)
      (worldOfPool []) 10 h1 (by norm_num) h3 h4).2.2.2.2⟩

end FG
